import Mathlib

/-!
Verification development for the capacitor-bank unbalance engine
(repository capacitor_bank_unbalance_models).

The Python sources are shallowly embedded here:
  * machine floats are idealised as exact rationals (ℚ); the real-valued
    nameplate/base formulas (which involve sqrt 3 and pi) live in ℝ;
  * a Python function that can raise is a function into `Except PyErr`;
  * each IEEE-table class (y_internal_fuses.py, yy_internal_fuses.py,
    yy_external_fuses.py, h_bridge_internal_fuses.py,
    h_bridge_external_fuses.py) becomes a namespace holding one definition
    per formula method plus the row/sweep drivers.
-/

namespace CapBank

/-- The Python exceptions the engine raises: `ValueError` for input checks and
`ZeroDivisionError` from a division guard or a literal division by zero.
Interpolated details of the original messages are elided. -/
inductive PyErr where
  | valueError (msg : String)
  | zeroDivisionError (site : String)
  | typeError (msg : String)
deriving DecidableEq

/-- The tolerance of `_safe_div` in the wye-table classes: `abs(den) < 1e-12`. -/
def eps : ℚ := 1 / 10 ^ 12

/-- Python `abs` on a rational, written so that the kernel can evaluate it. -/
def pyAbs (q : ℚ) : ℚ := if q < 0 then -q else q

lemma pyAbs_eq_abs (q : ℚ) : pyAbs q = |q| := by
  unfold pyAbs
  rcases lt_or_le q 0 with h | h
  · rw [if_pos h, abs_of_neg h]
  · rw [if_neg (not_lt.mpr h), abs_of_nonneg h]

/-- `_safe_div(num, den, name)` of y_internal_fuses.py / yy_internal_fuses.py /
yy_external_fuses.py: raises `ZeroDivisionError` when `abs(den) < 1e-12`,
otherwise divides. -/
def safeDiv (num den : ℚ) (site : String) : Except PyErr ℚ :=
  if pyAbs den < eps then .error (.zeroDivisionError site) else .ok (num / den)

/-- Plain Python division (h_bridge_internal_fuses.py) and the exact-zero
`_safe_div` of h_bridge_external_fuses.py: raises only when the denominator
is exactly zero. -/
def pyDiv (num den : ℚ) (site : String) : Except PyErr ℚ :=
  if den = 0 then .error (.zeroDivisionError site) else .ok (num / den)

/-- The `for`-loop of every `calcular`: one row per requested index, the first
raised exception aborting the whole sweep. -/
def sweep {α β : Type} (rowF : α → Except PyErr β) : List α → Except PyErr (List β)
  | [] => .ok []
  | i :: is => do
    let r ← rowF i
    let rest ← sweep rowF is
    .ok (r :: rest)

/-- Python `range(0, n)` as a list of integers (empty when `n ≤ 0`). -/
def rangeZ (n : ℤ) : List ℤ := (List.range n.toNat).map Int.ofNat

/-- Assigning `self.df` at the end of `calcular`: a raise leaves the previously
stored table untouched. -/
def updateDf {β : Type} (old : List β) (res : Except PyErr (List β)) : List β :=
  match res with
  | .ok t => t
  | .error _ => old

lemma ok_bind {α β : Type} (a : α) (f : α → Except PyErr β) :
    (Except.ok a >>= f) = f a := rfl

lemma safeDiv_of_eps_le (num den : ℚ) (site : String) (h : eps ≤ |den|) :
    safeDiv num den site = .ok (num / den) := by
  rw [safeDiv, pyAbs_eq_abs, if_neg (not_lt.mpr h)]

lemma safeDiv_of_one_le (num den : ℚ) (site : String) (h : 1 ≤ den) :
    safeDiv num den site = .ok (num / den) := by
  refine safeDiv_of_eps_le num den site ?_
  rw [abs_of_pos (lt_of_lt_of_le one_pos h)]
  exact le_trans (by norm_num [eps]) h

lemma pyDiv_of_ne (num den : ℚ) (site : String) (h : den ≠ 0) :
    pyDiv num den site = .ok (num / den) := by
  simp [pyDiv, h]

/-- Constructor parameters of `Table07SingleWyeInternalFuses` and of
`Table07DoubleWyeFig34` (same parameter list). -/
structure ParamsY where
  S : ℤ
  Pt : ℤ
  Pa : ℤ
  P : ℤ
  N : ℤ
  Su : ℤ
deriving DecidableEq

/-- One row appended by `calcular` of the two internal-fuse wye tables. -/
structure Row07 where
  G : ℤ
  f : ℤ
  Ci : ℚ
  Vg : ℚ
  Cu : ℚ
  Cg : ℚ
  Cs : ℚ
  Cp : ℚ
  Vng : ℚ
  Vln : ℚ
  Vcu : ℚ
  Ve : ℚ
  Iu : ℚ
  Ist : ℚ
  Iph : ℚ
  Ig : ℚ
  In : ℚ
deriving DecidableEq

namespace YInternal

/-- `_Ci` of Table07SingleWyeInternalFuses: `(N - f) / N`. -/
def fCi (p : ParamsY) (f : ℤ) : Except PyErr ℚ :=
  safeDiv ((p.N : ℚ) - (f : ℚ)) (p.N : ℚ) "Ci"

/-- `_Vg`: `Su*N / ((Su-1)*(N-f) + N)`. -/
def fVg (p : ParamsY) (f : ℤ) : Except PyErr ℚ :=
  safeDiv ((p.Su : ℚ) * (p.N : ℚ))
    (((p.Su : ℚ) - 1) * ((p.N : ℚ) - (f : ℚ)) + (p.N : ℚ)) "Vg"

/-- `_Cu`: `Su*Ci / (Ci*(Su-1) + 1)`. -/
def fCu (p : ParamsY) (Ci : ℚ) : Except PyErr ℚ :=
  safeDiv ((p.Su : ℚ) * Ci) (Ci * ((p.Su : ℚ) - 1) + 1) "Cu"

/-- `_Cg`: `(P - 1 + Cu) / P`. -/
def fCg (p : ParamsY) (Cu : ℚ) : Except PyErr ℚ :=
  safeDiv ((p.P : ℚ) - 1 + Cu) (p.P : ℚ) "Cg"

/-- `_Cs`: `S*Cg / (Cg*(S-1) + 1)`. -/
def fCs (p : ParamsY) (Cg : ℚ) : Except PyErr ℚ :=
  safeDiv ((p.S : ℚ) * Cg) (Cg * ((p.S : ℚ) - 1) + 1) "Cs"

/-- `_Cp`: `(Cs*P + (Pt - P)) / Pt`. -/
def fCp (p : ParamsY) (Cs : ℚ) : Except PyErr ℚ :=
  safeDiv (Cs * (p.P : ℚ) + ((p.Pt : ℚ) - (p.P : ℚ))) (p.Pt : ℚ) "Cp"

/-- `_Vng`: `G * (3/(2 + Cp) - 1)`. -/
def fVng (Cp : ℚ) (G : ℤ) : Except PyErr ℚ := do
  let inner ← safeDiv 3 (2 + Cp) "Vng inner"
  .ok ((G : ℚ) * (inner - 1))

/-- `compute one table row: the body of the `for f in f_values` loop of
`Table07SingleWyeInternalFuses.calcular` (no range check is performed). -/
def row (p : ParamsY) (G : ℤ) (f : ℤ) : Except PyErr Row07 := do
  let Ci ← fCi p f
  let Vg ← fVg p f
  let Cu ← fCu p Ci
  let Cg ← fCg p Cu
  let Cs ← fCs p Cg
  let Cp ← fCp p Cs
  let Vng ← fVng Cp G
  let Vln : ℚ := 1 + Vng
  let Vcu ← safeDiv (Vln * Cs) Cg "Vcu"
  let Ve : ℚ := Vcu * Vg
  let Iu : ℚ := Vcu * Cu
  let Ist : ℚ := Cs * Vln
  let Iph : ℚ := Cp * Vln
  let Ig : ℚ := (1 - (G : ℚ)) * (1 - Iph)
  .ok ⟨G, f, Ci, Vg, Cu, Cg, Cs, Cp, Vng, Vln, Vcu, Ve, Iu, Ist, Iph, Ig, 0⟩

/-- `Table07SingleWyeInternalFuses.calcular`: G must be 0 or 1, default
sweep domain `range(0, N)`. -/
def calcular (p : ParamsY) (G : ℤ) (fValues : Option (List ℤ)) :
    Except PyErr (List Row07) :=
  if G = 0 ∨ G = 1 then
    sweep (row p G) (fValues.getD (rangeZ p.N))
  else
    .error (.valueError "G must be 0 (grounded) or 1 (ungrounded).")

end YInternal

namespace YYInternal

/-- `_Ci` of Table07DoubleWyeFig34 (yy_internal_fuses.py): `(N - f) / N`. -/
def fCi (p : ParamsY) (f : ℤ) : Except PyErr ℚ :=
  safeDiv ((p.N : ℚ) - (f : ℚ)) (p.N : ℚ) "Ci"

/-- `_Vg`: `Su*N / ((Su-1)*(N-f) + N)`. -/
def fVg (p : ParamsY) (f : ℤ) : Except PyErr ℚ :=
  safeDiv ((p.Su : ℚ) * (p.N : ℚ))
    (((p.Su : ℚ) - 1) * ((p.N : ℚ) - (f : ℚ)) + (p.N : ℚ)) "Vg"

/-- `_Cu`: `Su*Ci / (Ci*(Su-1) + 1)`. -/
def fCu (p : ParamsY) (Ci : ℚ) : Except PyErr ℚ :=
  safeDiv ((p.Su : ℚ) * Ci) (Ci * ((p.Su : ℚ) - 1) + 1) "Cu"

/-- `_Cg`: `(P - 1 + Cu) / P`. -/
def fCg (p : ParamsY) (Cu : ℚ) : Except PyErr ℚ :=
  safeDiv ((p.P : ℚ) - 1 + Cu) (p.P : ℚ) "Cg"

/-- `_Cs`: `S*Cg / (Cg*(S-1) + 1)`. -/
def fCs (p : ParamsY) (Cg : ℚ) : Except PyErr ℚ :=
  safeDiv ((p.S : ℚ) * Cg) (Cg * ((p.S : ℚ) - 1) + 1) "Cs"

/-- `_Cp`: `(Cs*P + (Pt - P)) / Pt`. -/
def fCp (p : ParamsY) (Cs : ℚ) : Except PyErr ℚ :=
  safeDiv (Cs * (p.P : ℚ) + ((p.Pt : ℚ) - (p.P : ℚ))) (p.Pt : ℚ) "Cp"

/-- `_Vng`: `G * (3/(2 + Cp) - 1)`. -/
def fVng (Cp : ℚ) (G : ℤ) : Except PyErr ℚ := do
  let inner ← safeDiv 3 (2 + Cp) "Vng inner"
  .ok ((G : ℚ) * (inner - 1))

/-- `_In`: `3*Vng*G*(Pt - Pa) / Pt` (this is where the double-wye table
differs from the single-wye one, whose `_In` returns 0). -/
def fIn (p : ParamsY) (Vng : ℚ) (G : ℤ) : Except PyErr ℚ :=
  safeDiv (3 * Vng * (G : ℚ) * ((p.Pt : ℚ) - (p.Pa : ℚ))) (p.Pt : ℚ) "In"

/-- Body of the `for f in f_values` loop of `Table07DoubleWyeFig34.calcular`
(the `_Id` value is computed and discarded by the source; it performs no
division, so it is omitted here). -/
def row (p : ParamsY) (G : ℤ) (f : ℤ) : Except PyErr Row07 := do
  let Ci ← fCi p f
  let Vg ← fVg p f
  let Cu ← fCu p Ci
  let Cg ← fCg p Cu
  let Cs ← fCs p Cg
  let Cp ← fCp p Cs
  let Vng ← fVng Cp G
  let Vln : ℚ := 1 + Vng
  let Vcu ← safeDiv (Vln * Cs) Cg "Vcu"
  let Ve : ℚ := Vcu * Vg
  let Iu : ℚ := Vcu * Cu
  let Ist : ℚ := Cs * Vln
  let Iph : ℚ := Cp * Vln
  let Ig : ℚ := (1 - (G : ℚ)) * (1 - Iph)
  let In ← fIn p Vng G
  .ok ⟨G, f, Ci, Vg, Cu, Cg, Cs, Cp, Vng, Vln, Vcu, Ve, Iu, Ist, Iph, Ig, In⟩

/-- `Table07DoubleWyeFig34.calcular`: G must be 0 or 1, default sweep domain
`range(0, N)`. -/
def calcular (p : ParamsY) (G : ℤ) (fValues : Option (List ℤ)) :
    Except PyErr (List Row07) :=
  if G = 0 ∨ G = 1 then
    sweep (row p G) (fValues.getD (rangeZ p.N))
  else
    .error (.valueError "G must be 0 (grounded) or 1 (ungrounded).")

end YYInternal

/-- Constructor parameters of `Table03DoubleWyeFig29` (yy_external_fuses.py):
`S`, `Pt`, `Pa` and the fixed per-unit capacitance `Cu_fixed`. -/
structure Params03 where
  S : ℤ
  Pt : ℤ
  Pa : ℤ
  CuF : ℚ
deriving DecidableEq

/-- One row appended by `Table03DoubleWyeFig29.calcular`. -/
structure Row03 where
  G : ℤ
  n : ℤ
  CuFixed : ℚ
  Cg : ℚ
  Cs : ℚ
  Cp : ℚ
  Vng : ℚ
  Vln : ℚ
  Vcu : ℚ
  Iu : ℚ
  Iy : ℚ
  Iph : ℚ
  Ig : ℚ
  In : ℚ
deriving DecidableEq

namespace Table03

/-- `_Cg`: `(Pa - n) / Pa`. -/
def fCg (p : Params03) (n : ℤ) : Except PyErr ℚ :=
  safeDiv ((p.Pa : ℚ) - (n : ℚ)) (p.Pa : ℚ) "Cg"

/-- `_Cs`: `S*Cg / (Cg*(S-1) + 1)`. -/
def fCs (p : Params03) (Cg : ℚ) : Except PyErr ℚ :=
  safeDiv ((p.S : ℚ) * Cg) (Cg * ((p.S : ℚ) - 1) + 1) "Cs"

/-- `_Cp`: `(Cs*Pa + (Pt - Pa)) / Pt`. -/
def fCp (p : Params03) (Cs : ℚ) : Except PyErr ℚ :=
  safeDiv (Cs * (p.Pa : ℚ) + ((p.Pt : ℚ) - (p.Pa : ℚ))) (p.Pt : ℚ) "Cp"

/-- `_Vng`: `G * (3/(2 + Cp) - 1)`. -/
def fVng (Cp : ℚ) (G : ℤ) : Except PyErr ℚ := do
  let inner ← safeDiv 3 (2 + Cp) "Vng inner"
  .ok ((G : ℚ) * (inner - 1))

/-- `_Vcu`: the explicit limiting case `Vln * S` when `abs(Cg) < 1e-12`,
otherwise `Vln*Cs / Cg`. -/
def fVcu (p : Params03) (Vln Cs Cg : ℚ) : Except PyErr ℚ :=
  if pyAbs Cg < eps then .ok (Vln * (p.S : ℚ)) else safeDiv (Vln * Cs) Cg "Vcu"

/-- `_In`: `3*Vng*G*(Pt - Pa) / Pt`. -/
def fIn (p : Params03) (Vng : ℚ) (G : ℤ) : Except PyErr ℚ :=
  safeDiv (3 * Vng * (G : ℚ) * ((p.Pt : ℚ) - (p.Pa : ℚ))) (p.Pt : ℚ) "In"

/-- Body of the `for n in n_values` loop of `Table03DoubleWyeFig29.calcular`
after the range check has passed. -/
def row (p : Params03) (G : ℤ) (n : ℤ) : Except PyErr Row03 := do
  let Cg ← fCg p n
  let Cs ← fCs p Cg
  let Cp ← fCp p Cs
  let Vng ← fVng Cp G
  let Vln : ℚ := 1 + Vng
  let Vcu ← fVcu p Vln Cs Cg
  let Iu : ℚ := Vcu * p.CuF
  let Iy : ℚ := Cs * Vln
  let Iph : ℚ := Cp * Vln
  let Ig : ℚ := (1 - (G : ℚ)) * (1 - Iph)
  let In ← fIn p Vng G
  .ok ⟨G, n, p.CuF, Cg, Cs, Cp, Vng, Vln, Vcu, Iu, Iy, Iph, Ig, In⟩

/-- Full loop body including the in-loop range check
`if n < 0 or n > self.Pa: raise ValueError(...)`. -/
def rowChecked (p : Params03) (G : ℤ) (n : ℤ) : Except PyErr Row03 :=
  if n < 0 ∨ n > p.Pa then .error (.valueError "n fora do intervalo permitido.")
  else row p G n

/-- `Table03DoubleWyeFig29.calcular`: G must be 0 or 1, default sweep domain
`range(0, Pa - 2)`. -/
def calcular (p : Params03) (G : ℤ) (nValues : Option (List ℤ)) :
    Except PyErr (List Row03) :=
  if G = 0 ∨ G = 1 then
    sweep (rowChecked p G) (nValues.getD (rangeZ (p.Pa - 2)))
  else
    .error (.valueError "G deve ser 0 (aterrado) ou 1 (isolado).")

end Table03

/-- Constructor parameters of `Tabela08HBridgeCalculada`
(h_bridge_internal_fuses.py). -/
structure Params08 where
  S : ℤ
  St : ℤ
  Pt : ℤ
  Pa : ℤ
  P : ℤ
  N : ℤ
  Su : ℤ
deriving DecidableEq

/-- One row appended by `Tabela08HBridgeCalculada.calcular`. -/
structure Row08 where
  G : ℤ
  f : ℤ
  Cu : ℚ
  Chn : ℚ
  Cp : ℚ
  Cp0 : ℚ
  Vln : ℚ
  Vh : ℚ
  Ih : ℚ
  Vcu : ℚ
  Ve : ℚ
  Iu : ℚ
deriving DecidableEq

namespace Table08

/-- `_Cu`: `Su*(N-f) / ((N-f)*(Su-1) + N)` (plain Python division). -/
def fCu (p : Params08) (f : ℤ) : Except PyErr ℚ :=
  pyDiv ((p.Su : ℚ) * ((p.N : ℚ) - (f : ℚ)))
    (((p.N : ℚ) - (f : ℚ)) * ((p.Su : ℚ) - 1) + (p.N : ℚ)) "Cu"

/-- `_Chn`: `((Cu+P-1)*P) / ((Cu+P-1)*(St-1) + P) + (Pt-P)/St`. -/
def fChn (p : Params08) (Cu : ℚ) : Except PyErr ℚ := do
  let t1 ← pyDiv ((Cu + (p.P : ℚ) - 1) * (p.P : ℚ))
    ((Cu + (p.P : ℚ) - 1) * ((p.St : ℚ) - 1) + (p.P : ℚ)) "Chn term1"
  let t2 ← pyDiv ((p.Pt : ℚ) - (p.P : ℚ)) (p.St : ℚ) "Chn term2"
  .ok (t1 + t2)

/-- `_Cp`: `Chn*Pt / (Chn*(S-St) + Pt)`. -/
def fCp (p : Params08) (Chn : ℚ) : Except PyErr ℚ :=
  pyDiv (Chn * (p.Pt : ℚ)) (Chn * ((p.S : ℚ) - (p.St : ℚ)) + (p.Pt : ℚ)) "Cp"

/-- `_Vln`: `1 + G*((3/(2 + Cp/Cp0)) - 1)`. -/
def fVln (Cp Cp0 : ℚ) (G : ℤ) : Except PyErr ℚ := do
  let ratio ← pyDiv Cp Cp0 "Cp/Cp0"
  let inner ← pyDiv 3 (2 + ratio) "Vln inner"
  .ok (1 + (G : ℚ) * (inner - 1))

/-- `_Vh`: `Cp / Chn`. -/
def fVh (Cp Chn : ℚ) : Except PyErr ℚ := pyDiv Cp Chn "Vh"

/-- `_Ih`: `-Vln*((St/S) - Vh)*((1/(S-St)) + (1/St))*((S*(Pt-Pa))/Pt)`. -/
def fIh (p : Params08) (Vln Vh : ℚ) : Except PyErr ℚ := do
  let tA ← pyDiv (p.St : ℚ) (p.S : ℚ) "St/S"
  let tB1 ← pyDiv 1 ((p.S : ℚ) - (p.St : ℚ)) "Ih termB1"
  let tB2 ← pyDiv 1 (p.St : ℚ) "Ih termB2"
  let tC ← pyDiv ((p.S : ℚ) * ((p.Pt : ℚ) - (p.Pa : ℚ))) (p.Pt : ℚ) "Ih termC"
  .ok (-Vln * (tA - Vh) * (tB1 + tB2) * tC)

/-- `_Vcu`: `(Vln*Vh*P*S) / (P + (St-1)*(Cu+P-1))`. -/
def fVcu (p : Params08) (Vln Vh Cu : ℚ) : Except PyErr ℚ :=
  pyDiv (Vln * Vh * (p.P : ℚ) * (p.S : ℚ))
    ((p.P : ℚ) + ((p.St : ℚ) - 1) * (Cu + (p.P : ℚ) - 1)) "Vcu"

/-- `_Ve`: `(Vcu*Su*N) / (Su*(N-f) + f)`. -/
def fVe (p : Params08) (Vcu : ℚ) (f : ℤ) : Except PyErr ℚ :=
  pyDiv (Vcu * (p.Su : ℚ) * (p.N : ℚ))
    ((p.Su : ℚ) * ((p.N : ℚ) - (f : ℚ)) + (f : ℚ)) "Ve"

/-- The reference value `Cp(0)` computed once before the loop of `calcular`. -/
def refCp0 (p : Params08) : Except PyErr ℚ := do
  let Cu0 ← fCu p 0
  let Chn0 ← fChn p Cu0
  fCp p Chn0

/-- Body of the `for f in f_values` loop of `Tabela08HBridgeCalculada.calcular`,
given the precomputed reference `Cp0`. -/
def row (p : Params08) (G : ℤ) (Cp0 : ℚ) (f : ℤ) : Except PyErr Row08 := do
  let Cu ← fCu p f
  let Chn ← fChn p Cu
  let Cp ← fCp p Chn
  let Vln ← fVln Cp Cp0 G
  let Vh ← fVh Cp Chn
  let Ih ← fIh p Vln Vh
  let Vcu ← fVcu p Vln Vh Cu
  let Ve ← fVe p Vcu f
  let Iu : ℚ := Vcu * Cu
  .ok ⟨G, f, Cu, Chn, Cp, Cp0, Vln, Vh, Ih, Vcu, Ve, Iu⟩

/-- A single row as reached through `calcular` (reference `Cp0` recomputed
exactly as the source does before its loop). -/
def rowFull (p : Params08) (G : ℤ) (f : ℤ) : Except PyErr Row08 := do
  let Cp0 ← refCp0 p
  row p G Cp0 f

/-- `Tabela08HBridgeCalculada.calcular`: G must be 0 or 1, fixed sweep domain
`np.arange(N)`. -/
def calcular (p : Params08) (G : ℤ) : Except PyErr (List Row08) :=
  if G = 0 ∨ G = 1 then do
    let Cp0 ← refCp0 p
    sweep (row p G Cp0) (rangeZ p.N)
  else
    .error (.valueError "G must be 0 or 1.")

end Table08

/-- Constructor parameters of `Table06HBridgeMinimal`
(h_bridge_external_fuses.py). -/
structure Params06 where
  S : ℤ
  St : ℤ
  Pt : ℤ
  Pa : ℤ
deriving DecidableEq

/-- A requested fault index of Table 6: an integer `n` or the sentinel `"SU"`
(all units blown). -/
inductive NIdx where
  | idx (n : ℤ)
  | su
deriving DecidableEq

/-- A Vcu/Iu cell of Table 6: a number, or the short-circuit marker `"SC"`. -/
inductive CellVal where
  | num (q : ℚ)
  | sc
deriving DecidableEq

/-- One row appended by `Table06HBridgeMinimal.calcular`. -/
structure Row06 where
  n : NIdx
  CuOne : ℚ
  Chn : ℚ
  Cp : ℚ
  Cp0 : ℚ
  Vln : ℚ
  Vhn : ℚ
  Ih : ℚ
  Vcu : CellVal
  Iu : CellVal
deriving DecidableEq

namespace Table06

/-- `_Chn`: `((Pa-n)*Pa) / ((Pa-n)*(St-1) + Pa) + (Pt-Pa)/St`
(`_safe_div` here checks the denominator against exactly zero). -/
def fChn (p : Params06) (n : ℤ) : Except PyErr ℚ := do
  let t1 ← pyDiv (((p.Pa : ℚ) - (n : ℚ)) * (p.Pa : ℚ))
    (((p.Pa : ℚ) - (n : ℚ)) * ((p.St : ℚ) - 1) + (p.Pa : ℚ)) "Chn term1"
  let t2 ← pyDiv ((p.Pt : ℚ) - (p.Pa : ℚ)) (p.St : ℚ) "Chn term2"
  .ok (t1 + t2)

/-- `_Cp`: `Chn*Pt / (Chn*(S-St) + Pt)`. -/
def fCp (p : Params06) (Chn : ℚ) : Except PyErr ℚ :=
  pyDiv (Chn * (p.Pt : ℚ)) (Chn * ((p.S : ℚ) - (p.St : ℚ)) + (p.Pt : ℚ)) "Cp"

/-- `_Vln`: `1 + G*(3/(2 + Cp/Cp0) - 1)`. -/
def fVln (Cp Cp0 : ℚ) (G : ℤ) : Except PyErr ℚ := do
  let ratio ← pyDiv Cp Cp0 "Cp/Cp0"
  let inner ← pyDiv 3 (2 + ratio) "Vln inner"
  .ok (1 + (G : ℚ) * (inner - 1))

/-- `_Vhn`: `Cp / Chn`. -/
def fVhn (Cp Chn : ℚ) : Except PyErr ℚ := pyDiv Cp Chn "Vhn"

/-- `_Ih`: `-Vln*((St/S) - Vhn)*((1/(S-St)) + (1/St))*((S*(Pt-Pa))/Pt)`. -/
def fIh (p : Params06) (Vln Vhn : ℚ) : Except PyErr ℚ := do
  let tA ← pyDiv (p.St : ℚ) (p.S : ℚ) "St/S"
  let tB1 ← pyDiv 1 ((p.S : ℚ) - (p.St : ℚ)) "Ih termB1"
  let tB2 ← pyDiv 1 (p.St : ℚ) "Ih termB2"
  let tC ← pyDiv ((p.S : ℚ) * ((p.Pt : ℚ) - (p.Pa : ℚ))) (p.Pt : ℚ) "Ih termC"
  .ok (-Vln * (tA - Vhn) * (tB1 + tB2) * tC)

/-- `_Vcu`: `(Vln*Vhn*Pa*S) / (Pa + (St-1)*(Pa-n))`. -/
def fVcu (p : Params06) (Vln Vhn : ℚ) (n : ℤ) : Except PyErr ℚ :=
  pyDiv (Vln * Vhn * (p.Pa : ℚ) * (p.S : ℚ))
    ((p.Pa : ℚ) + ((p.St : ℚ) - 1) * ((p.Pa : ℚ) - (n : ℚ))) "Vcu"

/-- The references `Chn(0)` and `Cp(0)` computed once before the loop of
`calcular`. -/
def refs (p : Params06) : Except PyErr (ℚ × ℚ) := do
  let Chn0 ← fChn p 0
  let Cp0 ← fCp p Chn0
  .ok (Chn0, Cp0)

/-- Body of the `for n in n_values` loop of `Table06HBridgeMinimal.calcular`:
the `"SU"` sentinel yields the short-circuit row, an integer index is first
range-checked against `0..Pa`. -/
def rowAt (p : Params06) (G : ℤ) (Chn0 Cp0 : ℚ) : NIdx → Except PyErr Row06
  | .su => do
    let Vln0 ← fVln Cp0 Cp0 G
    let Vhn0 ← fVhn Cp0 Chn0
    let Ih0 ← fIh p Vln0 Vhn0
    .ok ⟨.su, 1, Chn0, Cp0, Cp0, Vln0, Vhn0, Ih0, .sc, .sc⟩
  | .idx n =>
    if n < 0 ∨ n > p.Pa then
      .error (.valueError "n must be between 0 and Pa (inclusive).")
    else do
      let Chn ← fChn p n
      let Cp ← fCp p Chn
      let Vln ← fVln Cp Cp0 G
      let Vhn ← fVhn Cp Chn
      let Ih ← fIh p Vln Vhn
      let Vcu ← fVcu p Vln Vhn n
      .ok ⟨.idx n, 1, Chn, Cp, Cp0, Vln, Vhn, Ih, .num Vcu, .num (1 * Vcu)⟩

/-- `Table06HBridgeMinimal.calcular` (the caller must supply `n_values`; the
master runner passes `np.arange(0, Pa)`). -/
def calcular (p : Params06) (G : ℤ) (nValues : List NIdx) :
    Except PyErr (List Row06) :=
  if G = 0 ∨ G = 1 then do
    let r ← refs p
    sweep (rowAt p G r.1 r.2) nValues
  else
    .error (.valueError "G must be 0 or 1 (0 = grounded, 1 = ungrounded).")

/-- The sweep domain `np.arange(0, Pa)` that
`MasterBankClasses.compute_table06_from_dict` passes to Table 6. -/
def masterNVals (p : Params06) : List NIdx := (rangeZ p.Pa).map NIdx.idx

end Table06

/-- `Except.isOk` as the source's "no exception was raised". -/
def exceptIsOk {α : Type} : Except PyErr α → Bool
  | .ok _ => true
  | .error _ => false

/-! ## Critical-row selection (`_postprocess_and_export` in
master_bank_classes.py)

The source keeps the per-unit table as a DataFrame; here a table is the list
of its `(f-or-n, Vcu)` pairs in row order. -/

/-- `Series.idxmax`: the first row attaining the maximum of the second
component (pandas returns the first occurrence of the maximum). -/
def bestRow (r : ℤ × ℚ) (rs : List (ℤ × ℚ)) : ℤ × ℚ :=
  rs.foldl (fun best x => if best.2 < x.2 then x else best) r

/-- `line_max_vcu`: among the rows whose `Vcu ≤ 1.1`, the `f`/`n` value of the
first row attaining the maximal `Vcu`; `None` when no row passes the mask. -/
def lineMaxVcu (rows : List (ℤ × ℚ)) : Option ℤ :=
  match rows.filter (fun r => r.2 ≤ 11 / 10) with
  | [] => none
  | r :: rs => some (bestRow r rs).1

/-- Modelled from the spec: the critical row per the spec uses the
rated-voltage ratio `Vcu2 = Vcu * factor` (the `Vcu2` column of the Unit
Converter), maximal among rows whose ratio does not exceed 1.10 — i.e. the
same mask-and-argmax applied to the scaled column. -/
def specCriticalRow (rows : List (ℤ × ℚ)) (factor : ℚ) : Option ℤ :=
  lineMaxVcu (rows.map (fun r => (r.1, r.2 * factor)))

/-! ## Validators (validation/validators.py and validation/validacao.py) -/

/-- The result triple returned by the validators. -/
structure VResult where
  is_valid : Bool
  errors : List String
  warnings : List String
deriving DecidableEq

/-- `validate_nominal_data(topology, data)`: the first failing check raises
`NominalDataError` with its message (returned here as `some message`);
`none` when every check passes. Interpolated values in the original messages
are elided. -/
def validateNominalData (topology : String) (S Pt Pa : ℤ) (P : Option ℤ) :
    Option String :=
  if S < 1 then some "S deve ser >= 1."
  else if Pt < 1 then some "Pt deve ser >= 1."
  else if Pa < 0 then some "Pa deve ser >= 0."
  else if Pa > Pt then some "Pa deve ser <= Pt."
  else if (topology = "yy_internal_fuses" ∨ topology = "yy_external_fuses") ∧
      Pt - Pa < 1 then
    some "Combinacao invalida: o lado direito teria Pt-Pa < 1."
  else if topology = "y_internal_fuses" ∧ Pa ≠ Pt then
    some "Para y_internal_fuses, Pt deve ser igual a Pa."
  else if topology = "yy_internal_fuses" ∨ topology = "y_internal_fuses" then
    match P with
    | none => some "Dados nominais incompletos: chave ausente P."
    | some q =>
      if q < 1 then some "P deve ser >= 1."
      else if Pa % q ≠ 0 then
        some "Combinacao invalida: Pa deve ser multiplo de P."
      else none
  else none

/-- `validate_inputs(topology, data)` for the non-H-bridge topologies: wraps
`validate_nominal_data`, catching `NominalDataError` into a `ValidationResult`
instead of raising (the H-bridge topologies dispatch to their own validator,
which no claim here needs). -/
def validateInputsNominal (topology : String) (S Pt Pa : ℤ) (P : Option ℤ) :
    VResult :=
  match validateNominalData topology S Pt Pa P with
  | some e => ⟨false, [e], []⟩
  | none => ⟨true, [], []⟩

/-! ## Basis Calculator (`ElectricalUtils.calcular_nominais_celula`)

The nameplate formulas involve `sqrt 3` and `pi`, so this part of the
embedding lives in ℝ. A Python float division by exactly zero raises
`ZeroDivisionError`. -/

/-- Plain Python float division over ℝ. -/
noncomputable def pyDivR (num den : ℝ) (site : String) : Except PyErr ℝ :=
  if den = 0 then .error (.zeroDivisionError site) else .ok (num / den)

/-- The `dados_banco` dict as `calcular_nominais_celula` reads it: the keys it
accesses unconditionally, plus the optional `Su` and `N`. -/
structure DadosBanco where
  tensao_trifasica_banco_V : ℝ
  V_rated : ℝ
  potencia_trifasica_banco_VAr : ℝ
  frequencia_Hz : ℝ
  S : ℤ
  Pt : ℤ
  Su : Option ℤ
  N : Option ℤ

/-- The dict returned by `calcular_nominais_celula` (group/element entries
are `None` when `Su`/`N` are absent). -/
structure Nominais where
  V_ll : ℝ
  V_phase : ℝ
  I_bank : ℝ
  C_phase : ℝ
  C_unit : ℝ
  V_unit : ℝ
  I_unit : ℝ
  C_grupo_serie : Option ℝ
  V_grupo_serie : Option ℝ
  I_grupo_serie : Option ℝ
  C_element : Option ℝ
  V_element : Option ℝ
  I_element : Option ℝ
  V_rated : ℝ
  S : ℤ

/-- `ElectricalUtils.calcular_nominais_celula`: no validation is performed;
each division raises on an exactly-zero denominator, and `C_grupo_serie / N`
with `Su` absent is Python's `None / int` TypeError. -/
noncomputable def calcularNominaisCelula (d : DadosBanco) : Except PyErr Nominais := do
  let V_ll := d.tensao_trifasica_banco_V
  let V_phase ← pyDivR V_ll (Real.sqrt 3) "V_phase"
  let I_bank ← pyDivR d.potencia_trifasica_banco_VAr (Real.sqrt 3 * V_ll) "I_bank"
  let Q_phase ← pyDivR d.potencia_trifasica_banco_VAr 3 "Q_phase"
  let C_phase ← pyDivR Q_phase (2 * Real.pi * d.frequencia_Hz * V_phase ^ 2) "C_phase"
  let C_unit ← pyDivR (C_phase * (d.S : ℝ)) (d.Pt : ℝ) "C_unit"
  let V_unit ← pyDivR V_phase (d.S : ℝ) "V_unit"
  let I_unit ← pyDivR I_bank (d.Pt : ℝ) "I_unit"
  let grp : Option (ℝ × ℝ × ℝ) ←
    match d.Su with
    | none => .ok none
    | some su => do
      let Vg ← pyDivR V_unit (su : ℝ) "V_grupo_serie"
      .ok (some (C_unit * (su : ℝ), Vg, I_unit))
  let elem : Option (ℝ × ℝ × ℝ) ←
    match d.N with
    | none => .ok none
    | some nn =>
      match grp with
      | none => .error (.typeError "unsupported operand type for division: None")
      | some g => do
        let Ce ← pyDivR g.1 (nn : ℝ) "C_element"
        let Ie ← pyDivR g.2.2 (nn : ℝ) "I_element"
        .ok (some (Ce, g.2.1, Ie))
  .ok ⟨V_ll, V_phase, I_bank, C_phase, C_unit, V_unit, I_unit,
    grp.map (fun g => g.1), grp.map (fun g => g.2.1), grp.map (fun g => g.2.2),
    elem.map (fun g => g.1), elem.map (fun g => g.2.1), elem.map (fun g => g.2.2),
    d.V_rated, d.S⟩

/-! ## Unit Converter (`ElectricalUtils.converter_unidades`)

A DataFrame is embedded as the ordered list of its columns, each a name with
the ordered list of its cell values. -/

/-- `"c" in df.columns` / `df["c"]`: the first column named `c`. -/
def getCol (df : List (String × List ℝ)) (c : String) : Option (List ℝ) :=
  (df.find? (fun col => col.1 == c)).map Prod.snd

/-- Python's banker's rounding (`round` ties to even) on a real. -/
noncomputable def roundHalfEven (x : ℝ) : ℤ :=
  if x - ⌊x⌋ < 1 / 2 then ⌊x⌋
  else if 1 / 2 < x - ⌊x⌋ then ⌊x⌋ + 1
  else if Even ⌊x⌋ then ⌊x⌋ else ⌊x⌋ + 1

open Classical in
/-- `ElectricalUtils.formatar_valores` = `_round_or_int(x, 4)`: integers kept
as they are, all other numbers rounded to 4 decimal places. -/
noncomputable def formatarValores (x : ℝ) : ℝ :=
  if ∃ n : ℤ, x = (n : ℝ) then x
  else ((roundHalfEven (x * 10 ^ 4) : ℤ) : ℝ) / 10 ^ 4

/-- One recognized-column block of `converter_unidades`: when column `c` is
present, the output gets `c` itself followed by its derived real-unit
columns, each a pointwise rescaling of `c`; when absent, nothing. -/
def colBlock (df : List (String × List ℝ)) (c : String)
    (derived : List (String × (ℝ → ℝ))) : List (String × List ℝ) :=
  match getCol df c with
  | none => []
  | some vs => (c, vs) :: derived.map (fun d => (d.1, vs.map d.2))

/-- `ElectricalUtils.converter_unidades(df, resultados)`: builds a fresh
output frame holding only the recognized per-unit columns and their derived
real-unit columns (`Cp``Cp_uF`, `Cu``C_unit_uF`, `Vng``V_ng_V`,
`In``In_A`, `Ig``Ig_A`, `Chn``Chn_uF`, `Vhn``Vhn_V`, `Ih``Ih_A`,
`Vcu``Vcu_kV` and `Vcu2`), then formats every cell with
`formatar_valores`. `resultados` always carries `V_rated` and `S` —
`calcular_nominais_celula` puts them there — so the `Vcu2` branch is taken
whenever `Vcu` is present, with
`Vcu2 = Vcu · V_unit / ((V_rated/sqrt 3)/S)`. -/
noncomputable def converterUnidades (df : List (String × List ℝ)) (res : Nominais) :
    List (String × List ℝ) :=
  (colBlock df "Cp" [("Cp_uF", fun x => 1000000 * x * res.C_phase)] ++
   colBlock df "Cu" [("C_unit_uF", fun x => 1000000 * x * res.C_unit)] ++
   colBlock df "Vng" [("V_ng_V", fun x => x * res.V_phase)] ++
   colBlock df "In" [("In_A", fun x => x * res.I_bank)] ++
   colBlock df "Ig" [("Ig_A", fun x => x * res.I_bank)] ++
   colBlock df "Chn" [("Chn_uF", fun x => x * res.C_phase * 1000000)] ++
   colBlock df "Vhn" [("Vhn_V", fun x => x * res.V_phase)] ++
   colBlock df "Ih" [("Ih_A", fun x => x * res.I_bank)] ++
   colBlock df "Vcu" [("Vcu_kV", fun x => x * res.V_unit * (1 / 1000)),
     ("Vcu2", fun x =>
       x * (res.V_unit / ((res.V_rated / Real.sqrt 3) / (res.S : ℝ))))]).map
    (fun col => (col.1, col.2.map formatarValores))

/-- The complete set of column names `converter_unidades` can emit. -/
def recognizedCols : List String :=
  ["Cp", "Cp_uF", "Cu", "C_unit_uF", "Vng", "V_ng_V", "In", "In_A",
   "Ig", "Ig_A", "Chn", "Chn_uF", "Vhn", "Vhn_V", "Ih", "Ih_A",
   "Vcu", "Vcu_kV", "Vcu2"]

/-! ## Concrete scenarios used by the theorems below -/

/-- The H-bridge external-fuse minimal scenario of the spec:
`S=5, St=3, Pt=15, Pa=8`. -/
def hbMinParams : Params06 := ⟨5, 3, 15, 8⟩

/-- The requested sweep `n = 0..7` plus the sentinel `"SU"`. -/
def hbMinNVals : List NIdx := (rangeZ 8).map NIdx.idx ++ [NIdx.su]

/-- The shape a Table-6 result is checked against: row count, and the last
row's index and Vcu/Iu cells (`none` when the sweep raised). -/
def shape06 (e : Except PyErr (List Row06)) :
    Option (ℕ × Option (NIdx × CellVal × CellVal)) :=
  match e with
  | .error _ => none
  | .ok t => some (t.length, t.getLast?.map (fun r => (r.n, r.Vcu, r.Iu)))

end CapBank

namespace CapBank

/-! ## The claims -/

set_option maxHeartbeats 1000000

/-- C6: for the minimal H-bridge-external model with S=5, St=3, Pt=15, Pa=8,
sweeping n = 0..7 plus the sentinel index "SU" yields a table of exactly 9
rows whose "SU" row carries the short-circuit marker "SC" in its Vcu and Iu
fields instead of a numeric value, with no error raised — for either
grounding value G = 0 or G = 1. -/
theorem c6_hbridge_su_sentinel :
    shape06 (Table06.calcular hbMinParams 0 hbMinNVals) =
      some (9, some (.su, .sc, .sc)) ∧
    shape06 (Table06.calcular hbMinParams 1 hbMinNVals) =
      some (9, some (.su, .sc, .sc)) := by
  constructor <;>
    norm_num [shape06, Table06.calcular, Table06.refs, Table06.rowAt,
      Table06.fChn, Table06.fCp, Table06.fVln, Table06.fVhn, Table06.fIh,
      Table06.fVcu, pyDiv, sweep, rangeZ, hbMinParams, hbMinNVals,
      List.range_succ, Bind.bind, Except.bind]

/-- C9: for the single-wye internal-fuse topology, `validate_inputs` accepts
a parameter set exactly when S ≥ 1, Pt ≥ 1, 0 ≤ Pa ≤ Pt, Pa = Pt, P ≥ 1 and
Pa mod P = 0 — in particular it accepts only if Pa = Pt, P ≥ 1 and
Pa mod P = 0, reporting an error (instead of raising) otherwise; concretely
it rejects Pa=7, P=2 and accepts Pa=6, P=2. -/
theorem c9_y_internal_validator :
    (∀ S Pt Pa P : ℤ,
      (validateInputsNominal "y_internal_fuses" S Pt Pa (some P)).is_valid = true ↔
        (1 ≤ S ∧ 1 ≤ Pt ∧ 0 ≤ Pa ∧ Pa ≤ Pt ∧ Pa = Pt ∧ 1 ≤ P ∧ Pa % P = 0)) ∧
    (validateInputsNominal "y_internal_fuses" 4 7 7 (some 2)).is_valid = false ∧
    (validateInputsNominal "y_internal_fuses" 4 7 7 (some 2)).errors ≠ [] ∧
    (validateInputsNominal "y_internal_fuses" 4 6 6 (some 2)).is_valid = true := by
  refine ⟨fun S Pt Pa P => ?_, ?_, ?_, ?_⟩
  · simp only [validateInputsNominal, validateNominalData]
    norm_num
    split_ifs <;> simp_all
  · simp [validateInputsNominal, validateNominalData, String.reduceEq]
  · simp [validateInputsNominal, validateNominalData, String.reduceEq]
  · simp [validateInputsNominal, validateNominalData, String.reduceEq]

/-- C10: for every one of the five models and every grounding value G outside
{0, 1}, `calcular` raises ValueError before any row is computed (the result
is the G-message error whatever the parameters and requested indices), and
the stored table `self.df` is left unchanged by the failed call. -/
theorem c10_g_validation (G : ℤ) (hG0 : G ≠ 0) (hG1 : G ≠ 1)
    (pY pYY : ParamsY) (p3 : Params03) (p8 : Params08) (p6 : Params06)
    (fv fvYY nv : Option (List ℤ)) (nv6 : List NIdx)
    (oldY oldYY : List Row07) (old3 : List Row03) (old8 : List Row08)
    (old6 : List Row06) :
    (YInternal.calcular pY G fv =
        .error (.valueError "G must be 0 (grounded) or 1 (ungrounded).") ∧
      updateDf oldY (YInternal.calcular pY G fv) = oldY) ∧
    (YYInternal.calcular pYY G fvYY =
        .error (.valueError "G must be 0 (grounded) or 1 (ungrounded).") ∧
      updateDf oldYY (YYInternal.calcular pYY G fvYY) = oldYY) ∧
    (Table03.calcular p3 G nv =
        .error (.valueError "G deve ser 0 (aterrado) ou 1 (isolado).") ∧
      updateDf old3 (Table03.calcular p3 G nv) = old3) ∧
    (Table08.calcular p8 G = .error (.valueError "G must be 0 or 1.") ∧
      updateDf old8 (Table08.calcular p8 G) = old8) ∧
    (Table06.calcular p6 G nv6 =
        .error (.valueError "G must be 0 or 1 (0 = grounded, 1 = ungrounded).") ∧
      updateDf old6 (Table06.calcular p6 G nv6) = old6) := by
  have h : ¬ (G = 0 ∨ G = 1) := by
    rintro (h | h) <;> [exact hG0 h; exact hG1 h]
  simp [YInternal.calcular, YYInternal.calcular, Table03.calcular,
    Table08.calcular, Table06.calcular, updateDf, h]

/-- Witness for C10 at the concrete out-of-range grounding value G = 2. -/
theorem c10_g_validation_witness :
    (YInternal.calcular ⟨4, 6, 6, 3, 14, 3⟩ 2 none =
        .error (.valueError "G must be 0 (grounded) or 1 (ungrounded).") ∧
      updateDf [] (YInternal.calcular ⟨4, 6, 6, 3, 14, 3⟩ 2 none) = []) ∧
    (YYInternal.calcular ⟨4, 11, 6, 3, 14, 3⟩ 2 none =
        .error (.valueError "G must be 0 (grounded) or 1 (ungrounded).") ∧
      updateDf [] (YYInternal.calcular ⟨4, 11, 6, 3, 14, 3⟩ 2 none) = []) ∧
    (Table03.calcular ⟨4, 14, 8, 1⟩ 2 none =
        .error (.valueError "G deve ser 0 (aterrado) ou 1 (isolado).") ∧
      updateDf [] (Table03.calcular ⟨4, 14, 8, 1⟩ 2 none) = []) ∧
    (Table08.calcular ⟨7, 3, 9, 5, 2, 16, 3⟩ 2 = .error (.valueError "G must be 0 or 1.") ∧
      updateDf [] (Table08.calcular ⟨7, 3, 9, 5, 2, 16, 3⟩ 2) = []) ∧
    (Table06.calcular ⟨5, 3, 15, 8⟩ 2 [] =
        .error (.valueError "G must be 0 or 1 (0 = grounded, 1 = ungrounded).") ∧
      updateDf [] (Table06.calcular ⟨5, 3, 15, 8⟩ 2 []) = []) :=
  c10_g_validation 2 (by decide) (by decide) ⟨4, 6, 6, 3, 14, 3⟩ ⟨4, 11, 6, 3, 14, 3⟩
    ⟨4, 14, 8, 1⟩ ⟨7, 3, 9, 5, 2, 16, 3⟩ ⟨5, 3, 15, 8⟩ none none none [] [] [] [] [] []

/-! ### Balanced-baseline helper lemmas (fault index 0) -/

lemma yInternal_row0 (p : ParamsY) (G : ℤ) (hS : 1 ≤ p.S) (hPt : 1 ≤ p.Pt)
    (hP : 1 ≤ p.P) (hN : 1 ≤ p.N) (hSu : 1 ≤ p.Su) :
    YInternal.row p G 0 = .ok ⟨G, 0, 1, 1, 1, 1, 1, 1, 0, 1, 1, 1, 1, 1, 1, 0, 0⟩ := by
  have hSQ : (1 : ℚ) ≤ (p.S : ℚ) := by exact_mod_cast hS
  have hPtQ : (1 : ℚ) ≤ (p.Pt : ℚ) := by exact_mod_cast hPt
  have hPQ : (1 : ℚ) ≤ (p.P : ℚ) := by exact_mod_cast hP
  have hNQ : (1 : ℚ) ≤ (p.N : ℚ) := by exact_mod_cast hN
  have hSuQ : (1 : ℚ) ≤ (p.Su : ℚ) := by exact_mod_cast hSu
  have hN0 : (p.N : ℚ) ≠ 0 := ne_of_gt (lt_of_lt_of_le one_pos hNQ)
  have hSu0 : (p.Su : ℚ) ≠ 0 := ne_of_gt (lt_of_lt_of_le one_pos hSuQ)
  have hSuN : (1 : ℚ) ≤ (p.Su : ℚ) * (p.N : ℚ) := by nlinarith
  have h1 : YInternal.fCi p 0 = .ok 1 := by
    rw [YInternal.fCi]
    push_cast
    rw [sub_zero, safeDiv_of_one_le _ _ _ hNQ, div_self hN0]
  have h2 : YInternal.fVg p 0 = .ok 1 := by
    rw [YInternal.fVg]
    push_cast
    rw [sub_zero, show ((p.Su : ℚ) - 1) * (p.N : ℚ) + (p.N : ℚ) =
      (p.Su : ℚ) * (p.N : ℚ) from by ring, safeDiv_of_one_le _ _ _ hSuN,
      div_self (by nlinarith)]
  have h3 : YInternal.fCu p 1 = .ok 1 := by
    rw [YInternal.fCu, mul_one, show (1 : ℚ) * ((p.Su : ℚ) - 1) + 1 = (p.Su : ℚ)
      from by ring, safeDiv_of_one_le _ _ _ hSuQ, div_self hSu0]
  have h4 : YInternal.fCg p 1 = .ok 1 := by
    rw [YInternal.fCg, show (p.P : ℚ) - 1 + 1 = (p.P : ℚ) from by ring,
      safeDiv_of_one_le _ _ _ hPQ, div_self (by linarith)]
  have h5 : YInternal.fCs p 1 = .ok 1 := by
    rw [YInternal.fCs, mul_one, show (1 : ℚ) * ((p.S : ℚ) - 1) + 1 = (p.S : ℚ)
      from by ring, safeDiv_of_one_le _ _ _ hSQ, div_self (by linarith)]
  have h6 : YInternal.fCp p 1 = .ok 1 := by
    rw [YInternal.fCp, one_mul, show (p.P : ℚ) + ((p.Pt : ℚ) - (p.P : ℚ)) =
      (p.Pt : ℚ) from by ring, safeDiv_of_one_le _ _ _ hPtQ, div_self (by linarith)]
  have h7 : YInternal.fVng 1 G = .ok 0 := by
    rw [YInternal.fVng, show (2 : ℚ) + 1 = 3 from by norm_num,
      safeDiv_of_one_le _ _ _ (by norm_num), ok_bind]
    norm_num
  have h8 : safeDiv ((1 + (0 : ℚ)) * 1) 1 "Vcu" = .ok 1 := by
    rw [safeDiv_of_one_le _ _ _ le_rfl]
    norm_num
  simp only [YInternal.row, h1, h2, h3, h4, h5, h6, h7, h8, ok_bind]
  norm_num

lemma yyInternal_row0 (p : ParamsY) (G : ℤ) (hS : 1 ≤ p.S) (hPt : 1 ≤ p.Pt)
    (hP : 1 ≤ p.P) (hN : 1 ≤ p.N) (hSu : 1 ≤ p.Su) :
    YYInternal.row p G 0 = .ok ⟨G, 0, 1, 1, 1, 1, 1, 1, 0, 1, 1, 1, 1, 1, 1, 0, 0⟩ := by
  have hSQ : (1 : ℚ) ≤ (p.S : ℚ) := by exact_mod_cast hS
  have hPtQ : (1 : ℚ) ≤ (p.Pt : ℚ) := by exact_mod_cast hPt
  have hPQ : (1 : ℚ) ≤ (p.P : ℚ) := by exact_mod_cast hP
  have hNQ : (1 : ℚ) ≤ (p.N : ℚ) := by exact_mod_cast hN
  have hSuQ : (1 : ℚ) ≤ (p.Su : ℚ) := by exact_mod_cast hSu
  have hN0 : (p.N : ℚ) ≠ 0 := ne_of_gt (lt_of_lt_of_le one_pos hNQ)
  have hSu0 : (p.Su : ℚ) ≠ 0 := ne_of_gt (lt_of_lt_of_le one_pos hSuQ)
  have hSuN : (1 : ℚ) ≤ (p.Su : ℚ) * (p.N : ℚ) := by nlinarith
  have h1 : YYInternal.fCi p 0 = .ok 1 := by
    rw [YYInternal.fCi]
    push_cast
    rw [sub_zero, safeDiv_of_one_le _ _ _ hNQ, div_self hN0]
  have h2 : YYInternal.fVg p 0 = .ok 1 := by
    rw [YYInternal.fVg]
    push_cast
    rw [sub_zero, show ((p.Su : ℚ) - 1) * (p.N : ℚ) + (p.N : ℚ) =
      (p.Su : ℚ) * (p.N : ℚ) from by ring, safeDiv_of_one_le _ _ _ hSuN,
      div_self (by nlinarith)]
  have h3 : YYInternal.fCu p 1 = .ok 1 := by
    rw [YYInternal.fCu, mul_one, show (1 : ℚ) * ((p.Su : ℚ) - 1) + 1 = (p.Su : ℚ)
      from by ring, safeDiv_of_one_le _ _ _ hSuQ, div_self hSu0]
  have h4 : YYInternal.fCg p 1 = .ok 1 := by
    rw [YYInternal.fCg, show (p.P : ℚ) - 1 + 1 = (p.P : ℚ) from by ring,
      safeDiv_of_one_le _ _ _ hPQ, div_self (by linarith)]
  have h5 : YYInternal.fCs p 1 = .ok 1 := by
    rw [YYInternal.fCs, mul_one, show (1 : ℚ) * ((p.S : ℚ) - 1) + 1 = (p.S : ℚ)
      from by ring, safeDiv_of_one_le _ _ _ hSQ, div_self (by linarith)]
  have h6 : YYInternal.fCp p 1 = .ok 1 := by
    rw [YYInternal.fCp, one_mul, show (p.P : ℚ) + ((p.Pt : ℚ) - (p.P : ℚ)) =
      (p.Pt : ℚ) from by ring, safeDiv_of_one_le _ _ _ hPtQ, div_self (by linarith)]
  have h7 : YYInternal.fVng 1 G = .ok 0 := by
    rw [YYInternal.fVng, show (2 : ℚ) + 1 = 3 from by norm_num,
      safeDiv_of_one_le _ _ _ (by norm_num), ok_bind]
    norm_num
  have h8 : safeDiv ((1 + (0 : ℚ)) * 1) 1 "Vcu" = .ok 1 := by
    rw [safeDiv_of_one_le _ _ _ le_rfl]
    norm_num
  have h9 : YYInternal.fIn p 0 G = .ok 0 := by
    rw [YYInternal.fIn, safeDiv_of_one_le _ _ _ hPtQ]
    norm_num
  simp only [YYInternal.row, h1, h2, h3, h4, h5, h6, h7, h8, h9, ok_bind]
  norm_num

lemma table03_row0 (p : Params03) (G : ℤ) (hS : 1 ≤ p.S) (hPa : 1 ≤ p.Pa)
    (hPaPt : p.Pa ≤ p.Pt) :
    Table03.rowChecked p G 0 = .ok ⟨G, 0, p.CuF, 1, 1, 1, 0, 1, 1, p.CuF, 1, 1, 0, 0⟩ := by
  have hSQ : (1 : ℚ) ≤ (p.S : ℚ) := by exact_mod_cast hS
  have hPaQ : (1 : ℚ) ≤ (p.Pa : ℚ) := by exact_mod_cast hPa
  have hPtQ : (1 : ℚ) ≤ (p.Pt : ℚ) := by exact_mod_cast le_trans hPa hPaPt
  have hchk : ¬ ((0 : ℤ) < 0 ∨ (0 : ℤ) > p.Pa) := by omega
  have h1 : Table03.fCg p 0 = .ok 1 := by
    rw [Table03.fCg]
    push_cast
    rw [sub_zero, safeDiv_of_one_le _ _ _ hPaQ, div_self (by linarith)]
  have h2 : Table03.fCs p 1 = .ok 1 := by
    rw [Table03.fCs, mul_one, show (1 : ℚ) * ((p.S : ℚ) - 1) + 1 = (p.S : ℚ)
      from by ring, safeDiv_of_one_le _ _ _ hSQ, div_self (by linarith)]
  have h3 : Table03.fCp p 1 = .ok 1 := by
    rw [Table03.fCp, one_mul, show (p.Pa : ℚ) + ((p.Pt : ℚ) - (p.Pa : ℚ)) =
      (p.Pt : ℚ) from by ring, safeDiv_of_one_le _ _ _ hPtQ, div_self (by linarith)]
  have h4 : Table03.fVng 1 G = .ok 0 := by
    rw [Table03.fVng, show (2 : ℚ) + 1 = 3 from by norm_num,
      safeDiv_of_one_le _ _ _ (by norm_num), ok_bind]
    norm_num
  have h5 : Table03.fVcu p (1 + 0) 1 1 = .ok 1 := by
    rw [Table03.fVcu, if_neg (by norm_num [pyAbs, eps]),
      safeDiv_of_one_le _ _ _ le_rfl]
    norm_num
  have h6 : Table03.fIn p 0 G = .ok 0 := by
    rw [Table03.fIn, safeDiv_of_one_le _ _ _ hPtQ]
    norm_num
  simp only [Table03.rowChecked, if_neg hchk, Table03.row, h1, h2, h3, h4, h5, h6,
    ok_bind]
  norm_num

/-- Shared positivity fact for the H-bridge reference denominator. -/
lemma hbridge_cp_den_ne (S St Pt : ℚ) (hSt : 1 ≤ St) (hPt : 1 ≤ Pt)
    (hSSt : 1 ≤ S - St) : Pt / St * (S - St) + Pt ≠ 0 := by
  have hq : (0 : ℚ) < Pt / St :=
    div_pos (lt_of_lt_of_le one_pos hPt) (lt_of_lt_of_le one_pos hSt)
  nlinarith

/-- The balanced H-bridge reference: `Cp(0) = (Pt/St)·Pt / ((Pt/St)·(S-St) + Pt)`
collapses to `Pt/S`. -/
lemma hbridge_cp_value (S St Pt : ℚ) (hSt : 1 ≤ St) (hPt : 1 ≤ Pt)
    (hSSt : 1 ≤ S - St) : Pt / St * Pt / (Pt / St * (S - St) + Pt) = Pt / S := by
  have hSt0 : St ≠ 0 := by linarith
  have hS0 : S ≠ 0 := by linarith
  rw [div_eq_div_iff (hbridge_cp_den_ne S St Pt hSt hPt hSSt) hS0]
  field_simp
  ring

lemma table08_rowFull0 (p : Params08) (G : ℤ) (hSt : 1 ≤ p.St) (hStS : p.St < p.S)
    (hPt : 1 ≤ p.Pt) (hP : 1 ≤ p.P) (hN : 1 ≤ p.N) (hSu : 1 ≤ p.Su) :
    Table08.rowFull p G 0 = .ok ⟨G, 0, 1, (p.Pt : ℚ) / (p.St : ℚ),
      (p.Pt : ℚ) / (p.S : ℚ), (p.Pt : ℚ) / (p.S : ℚ), 1, (p.St : ℚ) / (p.S : ℚ),
      0, 1, 1, 1⟩ := by
  have hStQ : (1 : ℚ) ≤ (p.St : ℚ) := by exact_mod_cast hSt
  have hPtQ : (1 : ℚ) ≤ (p.Pt : ℚ) := by exact_mod_cast hPt
  have hPQ : (1 : ℚ) ≤ (p.P : ℚ) := by exact_mod_cast hP
  have hNQ : (1 : ℚ) ≤ (p.N : ℚ) := by exact_mod_cast hN
  have hSuQ : (1 : ℚ) ≤ (p.Su : ℚ) := by exact_mod_cast hSu
  have hSSt : (1 : ℚ) ≤ (p.S : ℚ) - (p.St : ℚ) := by
    have h0 : p.St + 1 ≤ p.S := hStS
    have h1 : ((p.St : ℚ) + 1 : ℚ) ≤ (p.S : ℚ) := by exact_mod_cast h0
    linarith
  have hSQ : (1 : ℚ) ≤ (p.S : ℚ) := by linarith
  have hSt0 : (p.St : ℚ) ≠ 0 := by linarith
  have hS0 : (p.S : ℚ) ≠ 0 := by linarith
  have hPt0 : (p.Pt : ℚ) ≠ 0 := by linarith
  have hP0 : (p.P : ℚ) ≠ 0 := by linarith
  have hPtS0 : (p.Pt : ℚ) / (p.S : ℚ) ≠ 0 :=
    div_ne_zero hPt0 hS0
  have hPtSt0 : (p.Pt : ℚ) / (p.St : ℚ) ≠ 0 :=
    div_ne_zero hPt0 hSt0
  have hCu : Table08.fCu p 0 = .ok 1 := by
    rw [Table08.fCu]
    push_cast
    rw [sub_zero, show ((p.N : ℚ)) * ((p.Su : ℚ) - 1) + (p.N : ℚ) =
      (p.Su : ℚ) * (p.N : ℚ) from by ring,
      pyDiv_of_ne _ _ _ (by nlinarith), div_self (by nlinarith)]
  have hChn : Table08.fChn p 1 = .ok ((p.Pt : ℚ) / (p.St : ℚ)) := by
    rw [Table08.fChn, show (1 : ℚ) + (p.P : ℚ) - 1 = (p.P : ℚ) from by ring,
      show (p.P : ℚ) * ((p.St : ℚ) - 1) + (p.P : ℚ) = (p.P : ℚ) * (p.St : ℚ)
        from by ring,
      pyDiv_of_ne _ _ _ (by nlinarith), ok_bind,
      pyDiv_of_ne _ _ _ hSt0, ok_bind]
    congr 1
    field_simp
    ring
  have hCp : Table08.fCp p ((p.Pt : ℚ) / (p.St : ℚ)) = .ok ((p.Pt : ℚ) / (p.S : ℚ)) := by
    rw [Table08.fCp,
      pyDiv_of_ne _ _ _ (hbridge_cp_den_ne _ _ _ hStQ hPtQ hSSt)]
    exact congrArg Except.ok (hbridge_cp_value _ _ _ hStQ hPtQ hSSt)
  have hRef : Table08.refCp0 p = .ok ((p.Pt : ℚ) / (p.S : ℚ)) := by
    rw [Table08.refCp0]
    simp only [hCu, ok_bind, hChn, hCp]
  have e1 : pyDiv ((p.Pt : ℚ) / (p.S : ℚ)) ((p.Pt : ℚ) / (p.S : ℚ)) "Cp/Cp0" = .ok 1 := by
    rw [pyDiv_of_ne _ _ _ hPtS0, div_self hPtS0]
  have e2 : pyDiv 3 (2 + (1 : ℚ)) "Vln inner" = .ok 1 := by
    rw [pyDiv_of_ne _ _ _ (by norm_num)]
    norm_num
  have hVln : Table08.fVln ((p.Pt : ℚ) / (p.S : ℚ)) ((p.Pt : ℚ) / (p.S : ℚ)) G = .ok 1 := by
    simp only [Table08.fVln, e1, ok_bind, e2]
    norm_num
  have hVh : Table08.fVh ((p.Pt : ℚ) / (p.S : ℚ)) ((p.Pt : ℚ) / (p.St : ℚ)) =
      .ok ((p.St : ℚ) / (p.S : ℚ)) := by
    rw [Table08.fVh, pyDiv_of_ne _ _ _ hPtSt0]
    congr 1
    rw [div_eq_div_iff hPtSt0 hS0]
    field_simp
  have eA : pyDiv (p.St : ℚ) (p.S : ℚ) "St/S" = .ok ((p.St : ℚ) / (p.S : ℚ)) :=
    pyDiv_of_ne _ _ _ hS0
  have eB1 : pyDiv 1 ((p.S : ℚ) - (p.St : ℚ)) "Ih termB1" =
      .ok (1 / ((p.S : ℚ) - (p.St : ℚ))) := pyDiv_of_ne _ _ _ (by linarith)
  have eB2 : pyDiv 1 (p.St : ℚ) "Ih termB2" = .ok (1 / (p.St : ℚ)) :=
    pyDiv_of_ne _ _ _ hSt0
  have eC : pyDiv ((p.S : ℚ) * ((p.Pt : ℚ) - (p.Pa : ℚ))) (p.Pt : ℚ) "Ih termC" =
      .ok ((p.S : ℚ) * ((p.Pt : ℚ) - (p.Pa : ℚ)) / (p.Pt : ℚ)) :=
    pyDiv_of_ne _ _ _ hPt0
  have hIh : Table08.fIh p 1 ((p.St : ℚ) / (p.S : ℚ)) = .ok 0 := by
    simp only [Table08.fIh, eA, ok_bind, eB1, eB2, eC]
    congr 1
    ring
  have hVcu : Table08.fVcu p 1 ((p.St : ℚ) / (p.S : ℚ)) 1 = .ok 1 := by
    rw [Table08.fVcu, show (p.P : ℚ) + ((p.St : ℚ) - 1) * (1 + (p.P : ℚ) - 1) =
      (p.P : ℚ) * (p.St : ℚ) from by ring,
      pyDiv_of_ne _ _ _ (by nlinarith)]
    congr 1
    field_simp
    ring
  have hVe : Table08.fVe p 1 0 = .ok 1 := by
    rw [Table08.fVe]
    push_cast
    rw [sub_zero, add_zero, one_mul]
    rw [pyDiv_of_ne _ _ _ (by nlinarith), div_self (by nlinarith)]
  rw [Table08.rowFull]
  simp only [hRef, ok_bind, Table08.row, hCu, hChn, hCp, hVln, hVh, hIh, hVcu,
    hVe, ok_bind]
  norm_num

lemma table06_refs0 (p : Params06) (hSt : 1 ≤ p.St) (hStS : p.St < p.S)
    (hPt : 1 ≤ p.Pt) (hPa : 1 ≤ p.Pa) :
    Table06.fChn p 0 = .ok ((p.Pt : ℚ) / (p.St : ℚ)) ∧
    Table06.refs p = .ok ((p.Pt : ℚ) / (p.St : ℚ), (p.Pt : ℚ) / (p.S : ℚ)) := by
  have hStQ : (1 : ℚ) ≤ (p.St : ℚ) := by exact_mod_cast hSt
  have hPtQ : (1 : ℚ) ≤ (p.Pt : ℚ) := by exact_mod_cast hPt
  have hPaQ : (1 : ℚ) ≤ (p.Pa : ℚ) := by exact_mod_cast hPa
  have hSSt : (1 : ℚ) ≤ (p.S : ℚ) - (p.St : ℚ) := by
    have h0 : p.St + 1 ≤ p.S := hStS
    have h1 : ((p.St : ℚ) + 1 : ℚ) ≤ (p.S : ℚ) := by exact_mod_cast h0
    linarith
  have hSt0 : (p.St : ℚ) ≠ 0 := by linarith
  have hPa0 : (p.Pa : ℚ) ≠ 0 := by linarith
  have hChn : Table06.fChn p 0 = .ok ((p.Pt : ℚ) / (p.St : ℚ)) := by
    rw [Table06.fChn]
    push_cast
    rw [sub_zero, show (p.Pa : ℚ) * ((p.St : ℚ) - 1) + (p.Pa : ℚ) =
      (p.Pa : ℚ) * (p.St : ℚ) from by ring,
      pyDiv_of_ne _ _ _ (by nlinarith), ok_bind,
      pyDiv_of_ne _ _ _ hSt0, ok_bind]
    congr 1
    field_simp
    ring
  refine ⟨hChn, ?_⟩
  rw [Table06.refs]
  simp only [hChn, ok_bind, Table06.fCp,
    pyDiv_of_ne _ _ _ (hbridge_cp_den_ne _ _ _ hStQ hPtQ hSSt),
    hbridge_cp_value _ _ _ hStQ hPtQ hSSt, ok_bind]

lemma table06_row0 (p : Params06) (G : ℤ) (hSt : 1 ≤ p.St) (hStS : p.St < p.S)
    (hPt : 1 ≤ p.Pt) (hPa : 1 ≤ p.Pa) :
    Table06.rowAt p G ((p.Pt : ℚ) / (p.St : ℚ)) ((p.Pt : ℚ) / (p.S : ℚ)) (.idx 0) =
      .ok ⟨.idx 0, 1, (p.Pt : ℚ) / (p.St : ℚ), (p.Pt : ℚ) / (p.S : ℚ),
        (p.Pt : ℚ) / (p.S : ℚ), 1, (p.St : ℚ) / (p.S : ℚ), 0, .num 1, .num 1⟩ := by
  have hStQ : (1 : ℚ) ≤ (p.St : ℚ) := by exact_mod_cast hSt
  have hPtQ : (1 : ℚ) ≤ (p.Pt : ℚ) := by exact_mod_cast hPt
  have hPaQ : (1 : ℚ) ≤ (p.Pa : ℚ) := by exact_mod_cast hPa
  have hSSt : (1 : ℚ) ≤ (p.S : ℚ) - (p.St : ℚ) := by
    have h0 : p.St + 1 ≤ p.S := hStS
    have h1 : ((p.St : ℚ) + 1 : ℚ) ≤ (p.S : ℚ) := by exact_mod_cast h0
    linarith
  have hSQ : (1 : ℚ) ≤ (p.S : ℚ) := by linarith
  have hSt0 : (p.St : ℚ) ≠ 0 := by linarith
  have hS0 : (p.S : ℚ) ≠ 0 := by linarith
  have hPt0 : (p.Pt : ℚ) ≠ 0 := by linarith
  have hPa0 : (p.Pa : ℚ) ≠ 0 := by linarith
  have hPtS0 : (p.Pt : ℚ) / (p.S : ℚ) ≠ 0 := div_ne_zero hPt0 hS0
  have hPtSt0 : (p.Pt : ℚ) / (p.St : ℚ) ≠ 0 := div_ne_zero hPt0 hSt0
  have hchk : ¬ ((0 : ℤ) < 0 ∨ (0 : ℤ) > p.Pa) := by omega
  have hChn : Table06.fChn p 0 = .ok ((p.Pt : ℚ) / (p.St : ℚ)) :=
    (table06_refs0 p hSt hStS hPt hPa).1
  have hCp : Table06.fCp p ((p.Pt : ℚ) / (p.St : ℚ)) = .ok ((p.Pt : ℚ) / (p.S : ℚ)) := by
    rw [Table06.fCp,
      pyDiv_of_ne _ _ _ (hbridge_cp_den_ne _ _ _ hStQ hPtQ hSSt)]
    exact congrArg Except.ok (hbridge_cp_value _ _ _ hStQ hPtQ hSSt)
  have e1 : pyDiv ((p.Pt : ℚ) / (p.S : ℚ)) ((p.Pt : ℚ) / (p.S : ℚ)) "Cp/Cp0" = .ok 1 := by
    rw [pyDiv_of_ne _ _ _ hPtS0, div_self hPtS0]
  have e2 : pyDiv 3 (2 + (1 : ℚ)) "Vln inner" = .ok 1 := by
    rw [pyDiv_of_ne _ _ _ (by norm_num)]
    norm_num
  have hVln : Table06.fVln ((p.Pt : ℚ) / (p.S : ℚ)) ((p.Pt : ℚ) / (p.S : ℚ)) G = .ok 1 := by
    simp only [Table06.fVln, e1, ok_bind, e2]
    norm_num
  have hVhn : Table06.fVhn ((p.Pt : ℚ) / (p.S : ℚ)) ((p.Pt : ℚ) / (p.St : ℚ)) =
      .ok ((p.St : ℚ) / (p.S : ℚ)) := by
    rw [Table06.fVhn, pyDiv_of_ne _ _ _ hPtSt0]
    congr 1
    rw [div_eq_div_iff hPtSt0 hS0]
    field_simp
  have eA : pyDiv (p.St : ℚ) (p.S : ℚ) "St/S" = .ok ((p.St : ℚ) / (p.S : ℚ)) :=
    pyDiv_of_ne _ _ _ hS0
  have eB1 : pyDiv 1 ((p.S : ℚ) - (p.St : ℚ)) "Ih termB1" =
      .ok (1 / ((p.S : ℚ) - (p.St : ℚ))) := pyDiv_of_ne _ _ _ (by linarith)
  have eB2 : pyDiv 1 (p.St : ℚ) "Ih termB2" = .ok (1 / (p.St : ℚ)) :=
    pyDiv_of_ne _ _ _ hSt0
  have eC : pyDiv ((p.S : ℚ) * ((p.Pt : ℚ) - (p.Pa : ℚ))) (p.Pt : ℚ) "Ih termC" =
      .ok ((p.S : ℚ) * ((p.Pt : ℚ) - (p.Pa : ℚ)) / (p.Pt : ℚ)) :=
    pyDiv_of_ne _ _ _ hPt0
  have hIh : Table06.fIh p 1 ((p.St : ℚ) / (p.S : ℚ)) = .ok 0 := by
    simp only [Table06.fIh, eA, ok_bind, eB1, eB2, eC]
    congr 1
    ring
  have hVcu : Table06.fVcu p 1 ((p.St : ℚ) / (p.S : ℚ)) 0 = .ok 1 := by
    rw [Table06.fVcu]
    push_cast
    rw [sub_zero, show (p.Pa : ℚ) + ((p.St : ℚ) - 1) * (p.Pa : ℚ) =
      (p.Pa : ℚ) * (p.St : ℚ) from by ring,
      pyDiv_of_ne _ _ _ (by nlinarith)]
    congr 1
    field_simp
    ring
  rw [Table06.rowAt]
  simp only [if_neg hchk, hChn, hCp, hVln, hVhn, hIh, hVcu, ok_bind]
  norm_num

/-! ### Sweep-success machinery -/

lemma sweep_ok {α β : Type} (rowF : α → Except PyErr β) (idx : β → α) (l : List α)
    (h : ∀ n ∈ l, ∃ r, rowF n = .ok r ∧ idx r = n) :
    ∃ t, sweep rowF l = .ok t ∧ t.map idx = l := by
  induction l with
  | nil => exact ⟨[], rfl, rfl⟩
  | cons a as ih =>
    obtain ⟨r, hr, hi⟩ := h a (List.mem_cons_self a as)
    obtain ⟨t, ht, hm⟩ := ih (fun n hn => h n (List.mem_cons_of_mem a hn))
    refine ⟨r :: t, ?_, ?_⟩
    · rw [sweep, hr, ok_bind, ht, ok_bind]
    · simp [hm, hi]

lemma yInternal_row_ok (p : ParamsY) (G f : ℤ) (hS : 1 ≤ p.S) (hPt : 1 ≤ p.Pt)
    (hP : 1 ≤ p.P) (hPPt : p.P ≤ p.Pt) (hN : 1 ≤ p.N) (hSu : 1 ≤ p.Su)
    (hNP : p.N * p.P ≤ 10 ^ 12) (hf0 : 0 ≤ f) (hfN : f < p.N) :
    ∃ r, YInternal.row p G f = .ok r ∧ r.f = f := by
  have hSQ : (1 : ℚ) ≤ (p.S : ℚ) := by exact_mod_cast hS
  have hPtQ : (1 : ℚ) ≤ (p.Pt : ℚ) := by exact_mod_cast hPt
  have hPQ : (1 : ℚ) ≤ (p.P : ℚ) := by exact_mod_cast hP
  have hPPtQ : (p.P : ℚ) ≤ (p.Pt : ℚ) := by exact_mod_cast hPPt
  have hNQ : (1 : ℚ) ≤ (p.N : ℚ) := by exact_mod_cast hN
  have hSuQ : (1 : ℚ) ≤ (p.Su : ℚ) := by exact_mod_cast hSu
  have hNPQ : (p.N : ℚ) * (p.P : ℚ) ≤ 10 ^ 12 := by exact_mod_cast hNP
  have hfQ : (0 : ℚ) ≤ (f : ℚ) := by exact_mod_cast hf0
  have hNf1 : (1 : ℚ) ≤ (p.N : ℚ) - (f : ℚ) := by
    have h0 : f + 1 ≤ p.N := hfN
    have h1 : ((f : ℚ) + 1 : ℚ) ≤ (p.N : ℚ) := by exact_mod_cast h0
    linarith
  have hNpos : (0 : ℚ) < (p.N : ℚ) := by linarith
  have hPpos : (0 : ℚ) < (p.P : ℚ) := by linarith
  have hNPpos : (0 : ℚ) < (p.N : ℚ) * (p.P : ℚ) := by positivity
  -- Ci and its bounds
  have hci : YInternal.fCi p f =
      .ok (((p.N : ℚ) - (f : ℚ)) / (p.N : ℚ)) := by
    rw [YInternal.fCi]
    exact safeDiv_of_one_le _ _ _ hNQ
  have hciLo : 1 / (p.N : ℚ) ≤ ((p.N : ℚ) - (f : ℚ)) / (p.N : ℚ) := by
    rw [div_le_div_iff hNpos hNpos]
    nlinarith
  have hciHi : ((p.N : ℚ) - (f : ℚ)) / (p.N : ℚ) ≤ 1 :=
    (div_le_one hNpos).mpr (by linarith)
  have hciPos : (0 : ℚ) < ((p.N : ℚ) - (f : ℚ)) / (p.N : ℚ) :=
    lt_of_lt_of_le (by positivity) hciLo
  -- the remaining per-stage values
  set ci : ℚ := ((p.N : ℚ) - (f : ℚ)) / (p.N : ℚ) with hciDef
  have hvg : YInternal.fVg p f = .ok ((p.Su : ℚ) * (p.N : ℚ) /
      (((p.Su : ℚ) - 1) * ((p.N : ℚ) - (f : ℚ)) + (p.N : ℚ))) := by
    rw [YInternal.fVg]
    exact safeDiv_of_one_le _ _ _ (by nlinarith)
  have hcuDen : (1 : ℚ) ≤ ci * ((p.Su : ℚ) - 1) + 1 := by
    have : (0 : ℚ) ≤ ci * ((p.Su : ℚ) - 1) := by
      apply mul_nonneg (le_of_lt hciPos)
      linarith
    linarith
  have hcu : YInternal.fCu p ci =
      .ok ((p.Su : ℚ) * ci / (ci * ((p.Su : ℚ) - 1) + 1)) := by
    rw [YInternal.fCu]
    exact safeDiv_of_one_le _ _ _ hcuDen
  set cu : ℚ := (p.Su : ℚ) * ci / (ci * ((p.Su : ℚ) - 1) + 1) with hcuDef
  have hcuGeCi : ci ≤ cu := by
    rw [hcuDef, le_div_iff (by linarith)]
    nlinarith
  have hcuPos : 0 < cu := lt_of_lt_of_le hciPos hcuGeCi
  have hcg : YInternal.fCg p cu =
      .ok (((p.P : ℚ) - 1 + cu) / (p.P : ℚ)) := by
    rw [YInternal.fCg]
    exact safeDiv_of_one_le _ _ _ hPQ
  set cg : ℚ := ((p.P : ℚ) - 1 + cu) / (p.P : ℚ) with hcgDef
  have hciN : 1 / (p.N : ℚ) ≤ cu := le_trans hciLo hcuGeCi
  have hcgLo : 1 / ((p.N : ℚ) * (p.P : ℚ)) ≤ cg := by
    rw [hcgDef, div_le_div_iff hNPpos hPpos]
    have h1 : (1 : ℚ) ≤ cu * (p.N : ℚ) := by
      rw [div_le_iff hNpos] at hciN
      linarith [hciN]
    nlinarith
  have hcgPos : (0 : ℚ) < cg :=
    lt_of_lt_of_le (by positivity) hcgLo
  have hcgEps : eps ≤ |cg| := by
    rw [abs_of_pos hcgPos]
    refine le_trans ?_ hcgLo
    rw [eps]
    exact one_div_le_one_div_of_le hNPpos hNPQ
  have hcsDen : (1 : ℚ) ≤ cg * ((p.S : ℚ) - 1) + 1 := by
    have : (0 : ℚ) ≤ cg * ((p.S : ℚ) - 1) := by
      apply mul_nonneg (le_of_lt hcgPos)
      linarith
    linarith
  have hcs : YInternal.fCs p cg =
      .ok ((p.S : ℚ) * cg / (cg * ((p.S : ℚ) - 1) + 1)) := by
    rw [YInternal.fCs]
    exact safeDiv_of_one_le _ _ _ hcsDen
  set cs : ℚ := (p.S : ℚ) * cg / (cg * ((p.S : ℚ) - 1) + 1) with hcsDef
  have hcsPos : 0 ≤ cs := by
    rw [hcsDef]
    apply div_nonneg ?_ (by linarith)
    nlinarith
  have hcp : YInternal.fCp p cs =
      .ok ((cs * (p.P : ℚ) + ((p.Pt : ℚ) - (p.P : ℚ))) / (p.Pt : ℚ)) := by
    rw [YInternal.fCp]
    exact safeDiv_of_one_le _ _ _ hPtQ
  set cp : ℚ := (cs * (p.P : ℚ) + ((p.Pt : ℚ) - (p.P : ℚ))) / (p.Pt : ℚ) with hcpDef
  have hcpPos : 0 ≤ cp := by
    rw [hcpDef]
    apply div_nonneg ?_ (by linarith)
    nlinarith
  have hvng : YInternal.fVng cp G = .ok ((G : ℚ) * (3 / (2 + cp) - 1)) := by
    rw [YInternal.fVng, safeDiv_of_one_le _ _ _ (by linarith), ok_bind]
  have hvcu : safeDiv ((1 + (G : ℚ) * (3 / (2 + cp) - 1)) * cs) cg "Vcu" =
      .ok ((1 + (G : ℚ) * (3 / (2 + cp) - 1)) * cs / cg) :=
    safeDiv_of_eps_le _ _ _ hcgEps
  simp only [YInternal.row, hci, hvg, hcu, hcg, hcs, hcp, hvng, hvcu, ok_bind]
  exact ⟨_, rfl, rfl⟩

lemma table03_row_ok (p : Params03) (G n : ℤ) (hS : 1 ≤ p.S) (hPa : 1 ≤ p.Pa)
    (hPaPt : p.Pa ≤ p.Pt) (hn0 : 0 ≤ n) (hnPa : n ≤ p.Pa) :
    ∃ r, Table03.rowChecked p G n = .ok r ∧ r.n = n := by
  have hSQ : (1 : ℚ) ≤ (p.S : ℚ) := by exact_mod_cast hS
  have hPaQ : (1 : ℚ) ≤ (p.Pa : ℚ) := by exact_mod_cast hPa
  have hPtQ : (1 : ℚ) ≤ (p.Pt : ℚ) := by exact_mod_cast le_trans hPa hPaPt
  have hPaPtQ : (p.Pa : ℚ) ≤ (p.Pt : ℚ) := by exact_mod_cast hPaPt
  have hnQ : (0 : ℚ) ≤ (n : ℚ) := by exact_mod_cast hn0
  have hnPaQ : (n : ℚ) ≤ (p.Pa : ℚ) := by exact_mod_cast hnPa
  have hchk : ¬ (n < 0 ∨ n > p.Pa) := by omega
  have hcg : Table03.fCg p n = .ok (((p.Pa : ℚ) - (n : ℚ)) / (p.Pa : ℚ)) := by
    rw [Table03.fCg]
    exact safeDiv_of_one_le _ _ _ hPaQ
  set cg : ℚ := ((p.Pa : ℚ) - (n : ℚ)) / (p.Pa : ℚ) with hcgDef
  have hcgNonneg : 0 ≤ cg := by
    rw [hcgDef]
    apply div_nonneg (by linarith) (by linarith)
  have hcsDen : (1 : ℚ) ≤ cg * ((p.S : ℚ) - 1) + 1 := by
    have : (0 : ℚ) ≤ cg * ((p.S : ℚ) - 1) := mul_nonneg hcgNonneg (by linarith)
    linarith
  have hcs : Table03.fCs p cg =
      .ok ((p.S : ℚ) * cg / (cg * ((p.S : ℚ) - 1) + 1)) := by
    rw [Table03.fCs]
    exact safeDiv_of_one_le _ _ _ hcsDen
  set cs : ℚ := (p.S : ℚ) * cg / (cg * ((p.S : ℚ) - 1) + 1) with hcsDef
  have hcsNonneg : 0 ≤ cs := by
    rw [hcsDef]
    apply div_nonneg ?_ (by linarith)
    nlinarith
  have hcp : Table03.fCp p cs =
      .ok ((cs * (p.Pa : ℚ) + ((p.Pt : ℚ) - (p.Pa : ℚ))) / (p.Pt : ℚ)) := by
    rw [Table03.fCp]
    exact safeDiv_of_one_le _ _ _ hPtQ
  set cp : ℚ := (cs * (p.Pa : ℚ) + ((p.Pt : ℚ) - (p.Pa : ℚ))) / (p.Pt : ℚ) with hcpDef
  have hcpNonneg : 0 ≤ cp := by
    rw [hcpDef]
    apply div_nonneg ?_ (by linarith)
    nlinarith
  have hvng : Table03.fVng cp G = .ok ((G : ℚ) * (3 / (2 + cp) - 1)) := by
    rw [Table03.fVng, safeDiv_of_one_le _ _ _ (by linarith), ok_bind]
  have hin : Table03.fIn p ((G : ℚ) * (3 / (2 + cp) - 1)) G =
      .ok (3 * ((G : ℚ) * (3 / (2 + cp) - 1)) * (G : ℚ) *
        ((p.Pt : ℚ) - (p.Pa : ℚ)) / (p.Pt : ℚ)) := by
    rw [Table03.fIn]
    exact safeDiv_of_one_le _ _ _ hPtQ
  -- Vcu: either the limiting case or the guarded division, never an error
  rcases lt_or_le (pyAbs cg) eps with hVcuCase | hVcuCase
  · have hvcu : Table03.fVcu p (1 + (G : ℚ) * (3 / (2 + cp) - 1)) cs cg =
        .ok ((1 + (G : ℚ) * (3 / (2 + cp) - 1)) * (p.S : ℚ)) := by
      rw [Table03.fVcu, if_pos hVcuCase]
    simp only [Table03.rowChecked, if_neg hchk, Table03.row, hcg, hcs, hcp,
      hvng, hvcu, hin, ok_bind]
    exact ⟨_, rfl, rfl⟩
  · have hvcu : Table03.fVcu p (1 + (G : ℚ) * (3 / (2 + cp) - 1)) cs cg =
        .ok ((1 + (G : ℚ) * (3 / (2 + cp) - 1)) * cs / cg) := by
      rw [Table03.fVcu, if_neg (not_lt.mpr hVcuCase)]
      rw [pyAbs_eq_abs] at hVcuCase
      exact safeDiv_of_eps_le _ _ _ hVcuCase
    simp only [Table03.rowChecked, if_neg hchk, Table03.row, hcg, hcs, hcp,
      hvng, hvcu, hin, ok_bind]
    exact ⟨_, rfl, rfl⟩

lemma table06_row_ok (p : Params06) (G n : ℤ) (hSt : 1 ≤ p.St) (hStS : p.St < p.S)
    (hPt : 1 ≤ p.Pt) (hPa : 1 ≤ p.Pa) (hPaPt : p.Pa ≤ p.Pt)
    (hn0 : 0 ≤ n) (hnPa : n < p.Pa) :
    ∃ r, Table06.rowAt p G ((p.Pt : ℚ) / (p.St : ℚ)) ((p.Pt : ℚ) / (p.S : ℚ))
      (.idx n) = .ok r ∧ r.n = .idx n := by
  have hStQ : (1 : ℚ) ≤ (p.St : ℚ) := by exact_mod_cast hSt
  have hPtQ : (1 : ℚ) ≤ (p.Pt : ℚ) := by exact_mod_cast hPt
  have hPaQ : (1 : ℚ) ≤ (p.Pa : ℚ) := by exact_mod_cast hPa
  have hPaPtQ : (p.Pa : ℚ) ≤ (p.Pt : ℚ) := by exact_mod_cast hPaPt
  have hnQ : (0 : ℚ) ≤ (n : ℚ) := by exact_mod_cast hn0
  have hPan1 : (1 : ℚ) ≤ (p.Pa : ℚ) - (n : ℚ) := by
    have h0 : n + 1 ≤ p.Pa := hnPa
    have h1 : ((n : ℚ) + 1 : ℚ) ≤ (p.Pa : ℚ) := by exact_mod_cast h0
    linarith
  have hSSt : (1 : ℚ) ≤ (p.S : ℚ) - (p.St : ℚ) := by
    have h0 : p.St + 1 ≤ p.S := hStS
    have h1 : ((p.St : ℚ) + 1 : ℚ) ≤ (p.S : ℚ) := by exact_mod_cast h0
    linarith
  have hSQ : (1 : ℚ) ≤ (p.S : ℚ) := by linarith
  have hSt0 : (p.St : ℚ) ≠ 0 := by linarith
  have hS0 : (p.S : ℚ) ≠ 0 := by linarith
  have hPt0 : (p.Pt : ℚ) ≠ 0 := by linarith
  have hchk : ¬ (n < 0 ∨ n > p.Pa) := by omega
  have hPtS0 : (p.Pt : ℚ) / (p.S : ℚ) ≠ 0 :=
    div_ne_zero hPt0 hS0
  have hPtSpos : (0 : ℚ) < (p.Pt : ℚ) / (p.S : ℚ) :=
    div_pos (by linarith) (by linarith)
  -- Chn at n
  have hden1 : (0 : ℚ) < ((p.Pa : ℚ) - (n : ℚ)) * ((p.St : ℚ) - 1) + (p.Pa : ℚ) := by
    nlinarith
  have hchn : Table06.fChn p n =
      .ok (((p.Pa : ℚ) - (n : ℚ)) * (p.Pa : ℚ) /
          (((p.Pa : ℚ) - (n : ℚ)) * ((p.St : ℚ) - 1) + (p.Pa : ℚ)) +
        ((p.Pt : ℚ) - (p.Pa : ℚ)) / (p.St : ℚ)) := by
    rw [Table06.fChn, pyDiv_of_ne _ _ _ (ne_of_gt hden1), ok_bind,
      pyDiv_of_ne _ _ _ hSt0, ok_bind]
  set chn : ℚ := ((p.Pa : ℚ) - (n : ℚ)) * (p.Pa : ℚ) /
      (((p.Pa : ℚ) - (n : ℚ)) * ((p.St : ℚ) - 1) + (p.Pa : ℚ)) +
    ((p.Pt : ℚ) - (p.Pa : ℚ)) / (p.St : ℚ) with hchnDef
  have hchnPos : (0 : ℚ) < chn := by
    rw [hchnDef]
    have h1 : (0 : ℚ) < ((p.Pa : ℚ) - (n : ℚ)) * (p.Pa : ℚ) /
        (((p.Pa : ℚ) - (n : ℚ)) * ((p.St : ℚ) - 1) + (p.Pa : ℚ)) :=
      div_pos (by nlinarith) hden1
    have h2 : (0 : ℚ) ≤ ((p.Pt : ℚ) - (p.Pa : ℚ)) / (p.St : ℚ) :=
      div_nonneg (by linarith) (by linarith)
    linarith
  have hdenCp : (0 : ℚ) < chn * ((p.S : ℚ) - (p.St : ℚ)) + (p.Pt : ℚ) := by
    nlinarith
  have hcp : Table06.fCp p chn =
      .ok (chn * (p.Pt : ℚ) / (chn * ((p.S : ℚ) - (p.St : ℚ)) + (p.Pt : ℚ))) := by
    rw [Table06.fCp]
    exact pyDiv_of_ne _ _ _ (ne_of_gt hdenCp)
  set cp : ℚ := chn * (p.Pt : ℚ) / (chn * ((p.S : ℚ) - (p.St : ℚ)) + (p.Pt : ℚ))
    with hcpDef
  have hcpPos : (0 : ℚ) < cp := by
    rw [hcpDef]
    exact div_pos (by nlinarith) hdenCp
  have hratio : pyDiv cp ((p.Pt : ℚ) / (p.S : ℚ)) "Cp/Cp0" =
      .ok (cp / ((p.Pt : ℚ) / (p.S : ℚ))) := pyDiv_of_ne _ _ _ hPtS0
  have hratioPos : (0 : ℚ) ≤ cp / ((p.Pt : ℚ) / (p.S : ℚ)) :=
    le_of_lt (div_pos hcpPos hPtSpos)
  have hinner : pyDiv 3 (2 + cp / ((p.Pt : ℚ) / (p.S : ℚ))) "Vln inner" =
      .ok (3 / (2 + cp / ((p.Pt : ℚ) / (p.S : ℚ)))) :=
    pyDiv_of_ne _ _ _ (by linarith)
  have hvln : Table06.fVln cp ((p.Pt : ℚ) / (p.S : ℚ)) G =
      .ok (1 + (G : ℚ) * (3 / (2 + cp / ((p.Pt : ℚ) / (p.S : ℚ))) - 1)) := by
    simp only [Table06.fVln, hratio, ok_bind, hinner]
  have hvhn : Table06.fVhn cp chn = .ok (cp / chn) := by
    rw [Table06.fVhn]
    exact pyDiv_of_ne _ _ _ (ne_of_gt hchnPos)
  have hih : ∀ Vln Vhn : ℚ, Table06.fIh p Vln Vhn = .ok
      (-Vln * ((p.St : ℚ) / (p.S : ℚ) - Vhn) *
        (1 / ((p.S : ℚ) - (p.St : ℚ)) + 1 / (p.St : ℚ)) *
        ((p.S : ℚ) * ((p.Pt : ℚ) - (p.Pa : ℚ)) / (p.Pt : ℚ))) := by
    intro Vln Vhn
    simp only [Table06.fIh, pyDiv_of_ne _ _ _ hS0,
      pyDiv_of_ne _ _ _ (show (p.S : ℚ) - (p.St : ℚ) ≠ 0 from by linarith),
      pyDiv_of_ne _ _ _ hSt0, pyDiv_of_ne _ _ _ hPt0, ok_bind]
  have hdenVcu : (0 : ℚ) < (p.Pa : ℚ) + ((p.St : ℚ) - 1) * ((p.Pa : ℚ) - (n : ℚ)) := by
    nlinarith
  have hvcu : ∀ Vln Vhn : ℚ, Table06.fVcu p Vln Vhn n = .ok
      (Vln * Vhn * (p.Pa : ℚ) * (p.S : ℚ) /
        ((p.Pa : ℚ) + ((p.St : ℚ) - 1) * ((p.Pa : ℚ) - (n : ℚ)))) := by
    intro Vln Vhn
    rw [Table06.fVcu]
    exact pyDiv_of_ne _ _ _ (ne_of_gt hdenVcu)
  simp only [Table06.rowAt, if_neg hchk, hchn, hcp, hvln, hvhn, hih, hvcu, ok_bind]
  exact ⟨_, rfl, rfl⟩

lemma mem_rangeZ (n a : ℤ) (h : a ∈ rangeZ n) : 0 ≤ a ∧ a < n := by
  rw [rangeZ] at h
  obtain ⟨k, hk, rfl⟩ := List.mem_map.mp h
  rw [List.mem_range] at hk
  rw [Int.ofNat_eq_natCast]
  omega

/-- C5 counterexample: the double-wye external-fuse model's default sweep is
`range(0, Pa - 2)`, not `0..Pa-1`. With S=4, Pt=14, Pa=8 the default table
holds the six rows n = 0..5 instead of the claimed eight rows n = 0..7. -/
theorem c5_counterexample :
    Except.map (List.map Row03.n) (Table03.calcular ⟨4, 14, 8, 1⟩ 1 none) =
      .ok [0, 1, 2, 3, 4, 5] ∧
    rangeZ (Params03.mk 4 14 8 1).Pa = [0, 1, 2, 3, 4, 5, 6, 7] ∧
    ([0, 1, 2, 3, 4, 5] : List ℤ) ≠ [0, 1, 2, 3, 4, 5, 6, 7] := by
  refine ⟨?_, by decide, by decide⟩
  norm_num [Table03.calcular, Table03.rowChecked, Table03.row, Table03.fCg,
    Table03.fCs, Table03.fCp, Table03.fVng, Table03.fVcu, Table03.fIn,
    safeDiv, pyAbs, eps, sweep, rangeZ, List.range_succ, Except.map,
    Bind.bind, Except.bind]

/-- C5 (amended): with no explicit index sequence, the internal-fuse models
sweep `0..N-1` in ascending order (one row per index); the double-wye
external-fuse model's default domain however is `0..Pa-3`
(`range(0, Pa - 2)`); the H-bridge external-fuse model has no usable default
— its master runner passes `0..Pa-1`, in ascending order. -/
theorem c5_amended (pY : ParamsY) (p3 : Params03) (p6 : Params06) (G : ℤ)
    (hG : G = 0 ∨ G = 1)
    (hYS : 1 ≤ pY.S) (hYPt : 1 ≤ pY.Pt) (hYP : 1 ≤ pY.P) (hYPPt : pY.P ≤ pY.Pt)
    (hYN : 1 ≤ pY.N) (hYSu : 1 ≤ pY.Su) (hYNP : pY.N * pY.P ≤ 10 ^ 12)
    (h3S : 1 ≤ p3.S) (h3Pa : 1 ≤ p3.Pa) (h3PaPt : p3.Pa ≤ p3.Pt)
    (h6St : 1 ≤ p6.St) (h6StS : p6.St < p6.S) (h6Pt : 1 ≤ p6.Pt) (h6Pa : 1 ≤ p6.Pa)
    (h6PaPt : p6.Pa ≤ p6.Pt) :
    (∃ t, YInternal.calcular pY G none = .ok t ∧ t.map Row07.f = rangeZ pY.N) ∧
    (∃ t, Table03.calcular p3 G none = .ok t ∧
      t.map Row03.n = rangeZ (p3.Pa - 2)) ∧
    (∃ t, Table06.calcular p6 G (Table06.masterNVals p6) = .ok t ∧
      t.map Row06.n = Table06.masterNVals p6) := by
  refine ⟨?_, ?_, ?_⟩
  · rw [YInternal.calcular, if_pos hG]
    exact sweep_ok _ _ _ (fun f hf => by
      obtain ⟨h0, h1⟩ := mem_rangeZ _ _ hf
      exact yInternal_row_ok pY G f hYS hYPt hYP hYPPt hYN hYSu hYNP h0 h1)
  · rw [Table03.calcular, if_pos hG]
    exact sweep_ok _ _ _ (fun n hn => by
      obtain ⟨h0, h1⟩ := mem_rangeZ _ _ hn
      exact table03_row_ok p3 G n h3S h3Pa h3PaPt h0 (by omega))
  · rw [Table06.calcular, if_pos hG,
      (table06_refs0 p6 h6St h6StS h6Pt h6Pa).2, ok_bind]
    exact sweep_ok _ _ _ (fun i hi => by
      simp only [Table06.masterNVals, List.mem_map] at hi
      obtain ⟨n, hn, rfl⟩ := hi
      obtain ⟨h0, h1⟩ := mem_rangeZ _ _ hn
      exact table06_row_ok p6 G n h6St h6StS h6Pt h6Pa h6PaPt h0 h1)

/-- Witness for C5 (amended) at the spec's concrete parameter sets (G = 1). -/
theorem c5_amended_witness :
    (∃ t, YInternal.calcular ⟨4, 6, 6, 3, 14, 3⟩ 1 none = .ok t ∧
      t.map Row07.f = rangeZ (ParamsY.mk 4 6 6 3 14 3).N) ∧
    (∃ t, Table03.calcular ⟨4, 14, 8, 1⟩ 1 none = .ok t ∧
      t.map Row03.n = rangeZ ((Params03.mk 4 14 8 1).Pa - 2)) ∧
    (∃ t, Table06.calcular ⟨5, 3, 15, 8⟩ 1
        (Table06.masterNVals ⟨5, 3, 15, 8⟩) = .ok t ∧
      t.map Row06.n = Table06.masterNVals ⟨5, 3, 15, 8⟩) :=
  c5_amended ⟨4, 6, 6, 3, 14, 3⟩ ⟨4, 14, 8, 1⟩ ⟨5, 3, 15, 8⟩ 1 (Or.inr rfl)
    (by norm_num) (by norm_num) (by norm_num) (by norm_num) (by norm_num)
    (by norm_num) (by norm_num)
    (by norm_num) (by norm_num) (by norm_num)
    (by norm_num) (by norm_num) (by norm_num) (by norm_num) (by norm_num)

/-! ### Unit-converter lemmas -/

lemma colBlock_mem (df : List (String × List ℝ)) (c : String)
    (derived : List (String × (ℝ → ℝ))) (col : String × List ℝ)
    (h : col ∈ colBlock df c derived) :
    col.1 ∈ c :: derived.map Prod.fst ∧
    ∃ ws g, getCol df c = some ws ∧ col.2 = ws.map g := by
  cases hg : getCol df c with
  | none =>
    simp [colBlock, hg] at h
  | some vs =>
    simp only [colBlock, hg] at h
    rcases List.mem_cons.mp h with rfl | h1
    · exact ⟨List.mem_cons_self _ _, vs, id, rfl, (List.map_id vs).symm⟩
    · obtain ⟨d, hd, rfl⟩ := List.mem_map.mp h1
      exact ⟨List.mem_cons_of_mem _ (List.mem_map_of_mem Prod.fst hd), vs, d.2,
        rfl, rfl⟩

/-- C7 (amended): every column the Unit Converter outputs is one of the
recognized per-unit columns or their derived real-unit columns, and its
cells are a pointwise map of some input column's cells — so row order and
row count are preserved — while unknown input columns are dropped, not
passed through. -/
theorem c7_amended (df : List (String × List ℝ)) (res : Nominais) :
    (converterUnidades df res).Forall (fun col =>
      col.1 ∈ recognizedCols ∧
      ∃ src ws g, getCol df src = some ws ∧ col.2 = ws.map g) := by
  rw [List.forall_iff_forall_mem]
  intro col hcol
  rw [converterUnidades] at hcol
  obtain ⟨col0, h0, rfl⟩ := List.mem_map.mp hcol
  simp only [List.mem_append, or_assoc] at h0
  rcases h0 with h | h | h | h | h | h | h | h | h <;>
  · obtain ⟨hname, ws, g, hws, hcol2⟩ := colBlock_mem _ _ _ _ h
    refine ⟨?_, _, ws, formatarValores ∘ g, hws, ?_⟩
    · simp only [List.map, List.mem_cons, List.mem_singleton] at hname
      simp only [recognizedCols, List.mem_cons]
      tauto
    · rw [hcol2, List.map_map]

/-- The input frame for the C7 counterexample: an unknown column `n` next to
the recognized column `Vcu`. -/
def c7df : List (String × List ℝ) := [("n", [0, 1]), ("Vcu", [1, 2])]

/-- An all-ones basis dict for the C7 counterexample. -/
def c7res : Nominais :=
  ⟨1, 1, 1, 1, 1, 1, 1, none, none, none, none, none, none, 1, 1⟩

/-- C7 counterexample: the unknown input column `n` does not appear in the
converter's output at all — the output columns are exactly `Vcu`, `Vcu_kV`
and `Vcu2` — so unknown columns are dropped rather than passed through. -/
theorem c7_counterexample :
    (converterUnidades c7df c7res).map Prod.fst = ["Vcu", "Vcu_kV", "Vcu2"] ∧
    "n" ∉ (converterUnidades c7df c7res).map Prod.fst ∧
    getCol c7df "n" = some [0, 1] := by
  have h : (converterUnidades c7df c7res).map Prod.fst = ["Vcu", "Vcu_kV", "Vcu2"] := by
    simp [converterUnidades, colBlock, getCol, c7df, List.find?]
  refine ⟨h, ?_, ?_⟩
  · rw [h]
    decide
  · simp [getCol, c7df, List.find?]

/-! ### Basis-calculator lemmas -/

lemma pyDivR_of_ne (num den : ℝ) (site : String) (h : den ≠ 0) :
    pyDivR num den site = .ok (num / den) := by
  simp [pyDivR, h]

lemma okR_bind {α β : Type} (a : α) (f : α → Except PyErr β) :
    (Except.ok a >>= f) = f a := rfl

lemma sqrt3_ne : Real.sqrt 3 ≠ 0 :=
  ne_of_gt (Real.sqrt_pos.mpr (by norm_num))

/-- `calcular_nominais_celula` succeeds on every nameplate whose denominators
are nonzero, positive or not, and returns exactly the phase/unit formulas of
the source. -/
lemma calcularNominais_ok (d : DadosBanco)
    (hV : d.tensao_trifasica_banco_V ≠ 0) (hf : d.frequencia_Hz ≠ 0)
    (hS : (d.S : ℝ) ≠ 0) (hPt : (d.Pt : ℝ) ≠ 0)
    (hSu : ∀ su, d.Su = some su → (su : ℝ) ≠ 0)
    (hN : ∀ nn, d.N = some nn → (nn : ℝ) ≠ 0)
    (hNSu : d.N.isSome → d.Su.isSome) :
    ∃ b, calcularNominaisCelula d = .ok b ∧
      b.V_phase = d.tensao_trifasica_banco_V / Real.sqrt 3 ∧
      b.I_bank = d.potencia_trifasica_banco_VAr /
        (Real.sqrt 3 * d.tensao_trifasica_banco_V) ∧
      b.C_phase = d.potencia_trifasica_banco_VAr / 3 /
        (2 * Real.pi * d.frequencia_Hz *
          (d.tensao_trifasica_banco_V / Real.sqrt 3) ^ 2) ∧
      b.C_unit = (d.potencia_trifasica_banco_VAr / 3 /
        (2 * Real.pi * d.frequencia_Hz *
          (d.tensao_trifasica_banco_V / Real.sqrt 3) ^ 2)) * (d.S : ℝ) / (d.Pt : ℝ) ∧
      b.V_unit = d.tensao_trifasica_banco_V / Real.sqrt 3 / (d.S : ℝ) ∧
      b.V_rated = d.V_rated ∧ b.S = d.S := by
  have hVp : d.tensao_trifasica_banco_V / Real.sqrt 3 ≠ 0 :=
    div_ne_zero hV sqrt3_ne
  have e1 : pyDivR d.tensao_trifasica_banco_V (Real.sqrt 3) "V_phase" =
      .ok (d.tensao_trifasica_banco_V / Real.sqrt 3) :=
    pyDivR_of_ne _ _ _ sqrt3_ne
  have e2 : pyDivR d.potencia_trifasica_banco_VAr
      (Real.sqrt 3 * d.tensao_trifasica_banco_V) "I_bank" =
      .ok (d.potencia_trifasica_banco_VAr /
        (Real.sqrt 3 * d.tensao_trifasica_banco_V)) :=
    pyDivR_of_ne _ _ _ (mul_ne_zero sqrt3_ne hV)
  have e3 : pyDivR d.potencia_trifasica_banco_VAr 3 "Q_phase" =
      .ok (d.potencia_trifasica_banco_VAr / 3) :=
    pyDivR_of_ne _ _ _ (by norm_num)
  have e4den : 2 * Real.pi * d.frequencia_Hz *
      (d.tensao_trifasica_banco_V / Real.sqrt 3) ^ 2 ≠ 0 := by
    apply mul_ne_zero
    apply mul_ne_zero
    apply mul_ne_zero
    · norm_num
    · exact Real.pi_ne_zero
    · exact hf
    · exact pow_ne_zero 2 hVp
  have e4 : pyDivR (d.potencia_trifasica_banco_VAr / 3)
      (2 * Real.pi * d.frequencia_Hz *
        (d.tensao_trifasica_banco_V / Real.sqrt 3) ^ 2) "C_phase" =
      .ok (d.potencia_trifasica_banco_VAr / 3 /
        (2 * Real.pi * d.frequencia_Hz *
          (d.tensao_trifasica_banco_V / Real.sqrt 3) ^ 2)) :=
    pyDivR_of_ne _ _ _ e4den
  rw [calcularNominaisCelula]
  simp only [e1, okR_bind, e2, e3, e4,
    pyDivR_of_ne _ _ _ hPt, pyDivR_of_ne _ _ _ hS]
  cases hsu : d.Su with
  | none =>
    cases hnn : d.N with
    | none =>
      simp only [okR_bind]
      exact ⟨_, rfl, rfl, rfl, rfl, rfl, rfl, rfl, rfl⟩
    | some nn =>
      exact absurd (hNSu (by rw [hnn]; rfl)) (by rw [hsu]; simp)
  | some su =>
    have hsu0 : (su : ℝ) ≠ 0 := hSu su hsu
    cases hnn : d.N with
    | none =>
      simp only [okR_bind, pyDivR_of_ne _ _ _ hsu0]
      exact ⟨_, rfl, rfl, rfl, rfl, rfl, rfl, rfl, rfl⟩
    | some nn =>
      have hnn0 : (nn : ℝ) ≠ 0 := hN nn hnn
      simp only [okR_bind, pyDivR_of_ne _ _ _ hsu0, pyDivR_of_ne _ _ _ hnn0]
      exact ⟨_, rfl, rfl, rfl, rfl, rfl, rfl, rfl, rfl⟩

/-- C8 (amended): the Basis Calculator performs no nameplate validation at
all — for every nameplate whose formula denominators are nonzero (positive
or not) it returns the dict given by V_phase = V_ll/sqrt 3,
I_bank = Q/(sqrt 3 * V_ll), C_phase = (Q/3)/(2*pi*f*V_phase^2),
C_unit = C_phase*S/Pt and V_unit = V_phase/S; it raises ZeroDivisionError
only when a denominator (V_ll, f, S, Pt, or an optional Su/N) is exactly
zero, and never an InvalidNameplate-style error for merely negative
values. -/
theorem c8_amended (d : DadosBanco)
    (hV : d.tensao_trifasica_banco_V ≠ 0) (hf : d.frequencia_Hz ≠ 0)
    (hS : (d.S : ℝ) ≠ 0) (hPt : (d.Pt : ℝ) ≠ 0)
    (hSu : ∀ su, d.Su = some su → (su : ℝ) ≠ 0)
    (hN : ∀ nn, d.N = some nn → (nn : ℝ) ≠ 0)
    (hNSu : d.N.isSome → d.Su.isSome) :
    ∃ b, calcularNominaisCelula d = .ok b ∧
      b.V_phase = d.tensao_trifasica_banco_V / Real.sqrt 3 ∧
      b.I_bank = d.potencia_trifasica_banco_VAr /
        (Real.sqrt 3 * d.tensao_trifasica_banco_V) ∧
      b.C_phase = d.potencia_trifasica_banco_VAr / 3 /
        (2 * Real.pi * d.frequencia_Hz *
          (d.tensao_trifasica_banco_V / Real.sqrt 3) ^ 2) ∧
      b.C_unit = (d.potencia_trifasica_banco_VAr / 3 /
        (2 * Real.pi * d.frequencia_Hz *
          (d.tensao_trifasica_banco_V / Real.sqrt 3) ^ 2)) * (d.S : ℝ) / (d.Pt : ℝ) ∧
      b.V_unit = d.tensao_trifasica_banco_V / Real.sqrt 3 / (d.S : ℝ) ∧
      b.V_rated = d.V_rated ∧ b.S = d.S :=
  calcularNominais_ok d hV hf hS hPt hSu hN hNSu

/-- Witness for C8 (amended) at a concrete nameplate: 100 V, 1000 VAr,
60 Hz, S = 4, Pt = 6, no Su/N. -/
theorem c8_amended_witness :
    ∃ b, calcularNominaisCelula ⟨100, 110, 1000, 60, 4, 6, none, none⟩ = .ok b ∧
      b.V_phase = (100 : ℝ) / Real.sqrt 3 ∧
      b.I_bank = (1000 : ℝ) / (Real.sqrt 3 * 100) ∧
      b.C_phase = (1000 : ℝ) / 3 /
        (2 * Real.pi * 60 * ((100 : ℝ) / Real.sqrt 3) ^ 2) ∧
      b.C_unit = ((1000 : ℝ) / 3 /
        (2 * Real.pi * 60 * ((100 : ℝ) / Real.sqrt 3) ^ 2)) *
          (((4 : ℤ) : ℝ)) / (((6 : ℤ) : ℝ)) ∧
      b.V_unit = (100 : ℝ) / Real.sqrt 3 / (((4 : ℤ) : ℝ)) ∧
      b.V_rated = (110 : ℝ) ∧ b.S = (4 : ℤ) :=
  c8_amended ⟨100, 110, 1000, 60, 4, 6, none, none⟩ (by norm_num) (by norm_num)
    (by norm_num) (by norm_num) (by intro su h; cases h) (by intro nn h; cases h)
    (by intro h; cases h)

/-- The C8 counterexample nameplate: a negative line-to-line voltage
V_ll = -100 (and otherwise ordinary values). -/
def c8dados : DadosBanco := ⟨-100, 110, 1000, 60, 4, 6, none, none⟩

/-- C8 counterexample: on a nameplate with V_ll = -100 < 0 the Basis
Calculator does not fail at all — it returns a result dict — so non-positive
nameplate values are not rejected with InvalidNameplate. -/
theorem c8_counterexample :
    (∃ b, calcularNominaisCelula c8dados = .ok b) ∧
    c8dados.tensao_trifasica_banco_V < 0 := by
  obtain ⟨b, hb, hrest⟩ := calcularNominais_ok c8dados (by norm_num [c8dados])
    (by norm_num [c8dados]) (by norm_num [c8dados]) (by norm_num [c8dados])
    (by intro su h; cases h) (by intro nn h; cases h) (by intro h; cases h)
  exact ⟨⟨b, hb⟩, by norm_num [c8dados]⟩

/-! ### Critical-row selection lemmas -/

lemma bestRow_cons (r a : ℤ × ℚ) (rs : List (ℤ × ℚ)) :
    bestRow r (a :: rs) = bestRow (if r.2 < a.2 then a else r) rs := rfl

lemma bestRow_mem (rs : List (ℤ × ℚ)) : ∀ r, bestRow r rs ∈ r :: rs := by
  induction rs with
  | nil =>
    intro r
    simp [bestRow]
  | cons a as ih =>
    intro r
    rw [bestRow_cons]
    rcases List.mem_cons.mp (ih (if r.2 < a.2 then a else r)) with h | h
    · rw [h]
      split_ifs <;> simp
    · simp [List.mem_cons, Or.inr (Or.inr h)]

lemma bestRow_le (rs : List (ℤ × ℚ)) :
    ∀ r, ∀ x ∈ r :: rs, x.2 ≤ (bestRow r rs).2 := by
  induction rs with
  | nil =>
    intro r x hx
    rw [List.mem_singleton] at hx
    subst hx
    exact le_refl _
  | cons a as ih =>
    intro r x hx
    rw [bestRow_cons]
    have hr2 : r.2 ≤ (if r.2 < a.2 then a else r).2 := by
      split_ifs with h
      · exact le_of_lt h
      · exact le_refl _
    have ha2 : a.2 ≤ (if r.2 < a.2 then a else r).2 := by
      split_ifs with h
      · exact le_refl _
      · exact not_lt.mp h
    have hbase := ih (if r.2 < a.2 then a else r) _
      (List.mem_cons_self (if r.2 < a.2 then a else r) as)
    rcases List.mem_cons.mp hx with rfl | hx1
    · exact le_trans hr2 hbase
    rcases List.mem_cons.mp hx1 with rfl | hx2
    · exact le_trans ha2 hbase
    · exact ih (if r.2 < a.2 then a else r) x (List.mem_cons_of_mem _ hx2)

/-- C2 (amended): the critical row flagged by `_postprocess_and_export` is
computed from the working-basis per-unit Vcu column, not from the rated
ratio Vcu2 — no row is flagged exactly when every Vcu exceeds 1.1, and a
flagged index carries a Vcu that is ≤ 1.1 and maximal among the rows with
Vcu ≤ 1.1. -/
theorem c2_amended (rows : List (ℤ × ℚ)) :
    (lineMaxVcu rows = none ↔ ∀ r ∈ rows, ¬ (r.2 ≤ 11 / 10)) ∧
    (∀ f, lineMaxVcu rows = some f →
      ∃ v, (f, v) ∈ rows ∧ v ≤ 11 / 10 ∧
        ∀ r ∈ rows, r.2 ≤ 11 / 10 → r.2 ≤ v) := by
  constructor
  · rw [lineMaxVcu]
    cases hf : rows.filter (fun r => r.2 ≤ 11 / 10) with
    | nil =>
      simp only [true_iff]
      have := List.filter_eq_nil.mp hf
      intro r hr
      simpa using this r hr
    | cons a as =>
      simp only [reduceCtorEq, false_iff, not_forall]
      have ha : a ∈ rows.filter (fun r => r.2 ≤ 11 / 10) := by
        rw [hf]
        exact List.mem_cons_self a as
      rw [List.mem_filter] at ha
      exact ⟨a, ha.1, by simpa using ha.2⟩
  · intro f hl
    rw [lineMaxVcu] at hl
    cases hf : rows.filter (fun r => r.2 ≤ 11 / 10) with
    | nil =>
      rw [hf] at hl
      cases hl
    | cons a as =>
      rw [hf] at hl
      have hfl : f = (bestRow a as).1 := by
        injection hl with h
        exact h.symm
      have hmem : bestRow a as ∈ rows.filter (fun r => r.2 ≤ 11 / 10) := by
        rw [hf]
        exact bestRow_mem as a
      rw [List.mem_filter] at hmem
      refine ⟨(bestRow a as).2, ?_, by simpa using hmem.2, ?_⟩
      · rw [hfl]
        simpa using hmem.1
      · intro r hr hr2
        have hrf : r ∈ rows.filter (fun r => r.2 ≤ 11 / 10) :=
          List.mem_filter.mpr ⟨hr, by simpa using hr2⟩
        rw [hf] at hrf
        exact bestRow_le as a r hrf

/-- The table used for the C2 counterexample: `(f, Vcu)` rows
(0, 1.0), (1, 1.05), (2, 1.2). -/
def c2rows : List (ℤ × ℚ) := [(0, 1), (1, 21 / 20), (2, 6 / 5)]

/-- C2 counterexample: with rated voltage 110 against a 100 bus the Vcu2
factor is 10/11, so the rated-ratio criterion of the spec flags f = 2
(Vcu2 = 12/11 ≤ 1.1) while the code's criterion over raw Vcu flags f = 1;
the last conjunct checks the converter's factor (V_unit / V_unit_rated with
V_unit = (100/sqrt 3)/4, V_rated = 110, S = 4) is indeed 10/11. -/
theorem c2_counterexample :
    lineMaxVcu c2rows = some 1 ∧
    specCriticalRow c2rows (10 / 11) = some 2 ∧
    100 / Real.sqrt 3 / 4 / (110 / Real.sqrt 3 / 4) = (10 / 11 : ℝ) ∧
    (1 : ℤ) ≠ 2 := by
  have hs3 : Real.sqrt 3 ≠ 0 :=
    ne_of_gt (Real.sqrt_pos.mpr (by norm_num))
  refine ⟨?_, ?_, ?_, by decide⟩
  · norm_num [lineMaxVcu, c2rows, bestRow, List.filter]
  · norm_num [specCriticalRow, lineMaxVcu, c2rows, bestRow, List.filter]
  · field_simp
    norm_num

/-- C1 counterexample: at fault index 0 the H-bridge external-fuse model's
row does not have all capacitance and voltage ratios equal to 1.0 — with
S=5, St=3, Pt=15, Pa=8 the computed Chn is Pt/St = 5 and Vhn is St/S = 3/5. -/
theorem c1_counterexample :
    Except.map (List.map Row06.Chn) (Table06.calcular hbMinParams 1 [.idx 0]) =
      .ok [5] ∧
    Except.map (List.map Row06.Vhn) (Table06.calcular hbMinParams 1 [.idx 0]) =
      .ok [3 / 5] ∧
    (5 : ℚ) ≠ 1 ∧ (3 / 5 : ℚ) ≠ 1 := by
  refine ⟨?_, ?_, by norm_num, by norm_num⟩ <;>
    norm_num [Table06.calcular, Table06.refs, Table06.rowAt, Table06.fChn,
      Table06.fCp, Table06.fVln, Table06.fVhn, Table06.fIh, Table06.fVcu,
      pyDiv, sweep, hbMinParams, Except.map, Bind.bind, Except.bind]

/-- C1 (amended): at fault index 0 each model's row is the balanced baseline
in the following exact sense. For the wye-family models (single-wye
internal, double-wye internal, double-wye external) the capacitance ratios
Ci, Cu, Cg, Cs, Cp and the working ratios Vg, Vln, Vcu, Ve, Iu, Ist/Iy, Iph
all equal 1.0 (Table 3's Iu equals its Cu_fixed factor). For the two
H-bridge models only Cu, Vln, Vcu, Ve and Iu equal 1.0, while the H-leg
quantities are not per-unit-balanced: Chn = Pt/St, Cp = Cp0 = Pt/S and
Vhn (Vh) = St/S. In every model the unbalance quantities Vng, Ig, In and Ih
equal 0, not 1.0. -/
theorem c1_amended_baseline (pY pYY : ParamsY) (p3 : Params03) (p8 : Params08)
    (p6 : Params06) (G : ℤ)
    (hYS : 1 ≤ pY.S) (hYPt : 1 ≤ pY.Pt) (hYP : 1 ≤ pY.P) (hYN : 1 ≤ pY.N)
    (hYSu : 1 ≤ pY.Su)
    (hYYS : 1 ≤ pYY.S) (hYYPt : 1 ≤ pYY.Pt) (hYYP : 1 ≤ pYY.P) (hYYN : 1 ≤ pYY.N)
    (hYYSu : 1 ≤ pYY.Su)
    (h3S : 1 ≤ p3.S) (h3Pa : 1 ≤ p3.Pa) (h3PaPt : p3.Pa ≤ p3.Pt)
    (h8St : 1 ≤ p8.St) (h8StS : p8.St < p8.S) (h8Pt : 1 ≤ p8.Pt) (h8P : 1 ≤ p8.P)
    (h8N : 1 ≤ p8.N) (h8Su : 1 ≤ p8.Su)
    (h6St : 1 ≤ p6.St) (h6StS : p6.St < p6.S) (h6Pt : 1 ≤ p6.Pt) (h6Pa : 1 ≤ p6.Pa) :
    YInternal.row pY G 0 = .ok ⟨G, 0, 1, 1, 1, 1, 1, 1, 0, 1, 1, 1, 1, 1, 1, 0, 0⟩ ∧
    YYInternal.row pYY G 0 = .ok ⟨G, 0, 1, 1, 1, 1, 1, 1, 0, 1, 1, 1, 1, 1, 1, 0, 0⟩ ∧
    Table03.rowChecked p3 G 0 =
      .ok ⟨G, 0, p3.CuF, 1, 1, 1, 0, 1, 1, p3.CuF, 1, 1, 0, 0⟩ ∧
    Table08.rowFull p8 G 0 = .ok ⟨G, 0, 1, (p8.Pt : ℚ) / (p8.St : ℚ),
      (p8.Pt : ℚ) / (p8.S : ℚ), (p8.Pt : ℚ) / (p8.S : ℚ), 1,
      (p8.St : ℚ) / (p8.S : ℚ), 0, 1, 1, 1⟩ ∧
    Table06.refs p6 = .ok ((p6.Pt : ℚ) / (p6.St : ℚ), (p6.Pt : ℚ) / (p6.S : ℚ)) ∧
    Table06.rowAt p6 G ((p6.Pt : ℚ) / (p6.St : ℚ)) ((p6.Pt : ℚ) / (p6.S : ℚ)) (.idx 0) =
      .ok ⟨.idx 0, 1, (p6.Pt : ℚ) / (p6.St : ℚ), (p6.Pt : ℚ) / (p6.S : ℚ),
        (p6.Pt : ℚ) / (p6.S : ℚ), 1, (p6.St : ℚ) / (p6.S : ℚ), 0, .num 1, .num 1⟩ :=
  ⟨yInternal_row0 pY G hYS hYPt hYP hYN hYSu,
   yyInternal_row0 pYY G hYYS hYYPt hYYP hYYN hYYSu,
   table03_row0 p3 G h3S h3Pa h3PaPt,
   table08_rowFull0 p8 G h8St h8StS h8Pt h8P h8N h8Su,
   (table06_refs0 p6 h6St h6StS h6Pt h6Pa).2,
   table06_row0 p6 G h6St h6StS h6Pt h6Pa⟩

/-- Witness for C1 (amended) at the spec's concrete parameter sets,
ungrounded (G = 1). -/
theorem c1_amended_baseline_witness :
    YInternal.row ⟨4, 6, 6, 3, 14, 3⟩ 1 0 =
      .ok ⟨1, 0, 1, 1, 1, 1, 1, 1, 0, 1, 1, 1, 1, 1, 1, 0, 0⟩ ∧
    YYInternal.row ⟨4, 11, 6, 3, 14, 3⟩ 1 0 =
      .ok ⟨1, 0, 1, 1, 1, 1, 1, 1, 0, 1, 1, 1, 1, 1, 1, 0, 0⟩ ∧
    Table03.rowChecked ⟨4, 14, 8, 1⟩ 1 0 =
      .ok ⟨1, 0, (Params03.mk 4 14 8 1).CuF, 1, 1, 1, 0, 1, 1,
        (Params03.mk 4 14 8 1).CuF, 1, 1, 0, 0⟩ ∧
    Table08.rowFull ⟨7, 3, 9, 5, 2, 16, 3⟩ 1 0 =
      .ok ⟨1, 0, 1, ((Params08.mk 7 3 9 5 2 16 3).Pt : ℚ) / ((Params08.mk 7 3 9 5 2 16 3).St : ℚ),
        ((Params08.mk 7 3 9 5 2 16 3).Pt : ℚ) / ((Params08.mk 7 3 9 5 2 16 3).S : ℚ),
        ((Params08.mk 7 3 9 5 2 16 3).Pt : ℚ) / ((Params08.mk 7 3 9 5 2 16 3).S : ℚ), 1,
        ((Params08.mk 7 3 9 5 2 16 3).St : ℚ) / ((Params08.mk 7 3 9 5 2 16 3).S : ℚ),
        0, 1, 1, 1⟩ ∧
    Table06.refs ⟨5, 3, 15, 8⟩ =
      .ok (((Params06.mk 5 3 15 8).Pt : ℚ) / ((Params06.mk 5 3 15 8).St : ℚ),
        ((Params06.mk 5 3 15 8).Pt : ℚ) / ((Params06.mk 5 3 15 8).S : ℚ)) ∧
    Table06.rowAt ⟨5, 3, 15, 8⟩ 1 (((Params06.mk 5 3 15 8).Pt : ℚ) / ((Params06.mk 5 3 15 8).St : ℚ))
        (((Params06.mk 5 3 15 8).Pt : ℚ) / ((Params06.mk 5 3 15 8).S : ℚ)) (.idx 0) =
      .ok ⟨.idx 0, 1, ((Params06.mk 5 3 15 8).Pt : ℚ) / ((Params06.mk 5 3 15 8).St : ℚ),
        ((Params06.mk 5 3 15 8).Pt : ℚ) / ((Params06.mk 5 3 15 8).S : ℚ),
        ((Params06.mk 5 3 15 8).Pt : ℚ) / ((Params06.mk 5 3 15 8).S : ℚ), 1,
        ((Params06.mk 5 3 15 8).St : ℚ) / ((Params06.mk 5 3 15 8).S : ℚ), 0, .num 1, .num 1⟩ :=
  c1_amended_baseline ⟨4, 6, 6, 3, 14, 3⟩ ⟨4, 11, 6, 3, 14, 3⟩ ⟨4, 14, 8, 1⟩
    ⟨7, 3, 9, 5, 2, 16, 3⟩ ⟨5, 3, 15, 8⟩ 1
    (by norm_num) (by norm_num) (by norm_num) (by norm_num) (by norm_num)
    (by norm_num) (by norm_num) (by norm_num) (by norm_num) (by norm_num)
    (by norm_num) (by norm_num) (by norm_num)
    (by norm_num) (by norm_num) (by norm_num) (by norm_num) (by norm_num) (by norm_num)
    (by norm_num) (by norm_num) (by norm_num) (by norm_num)

/-- C4 counterexample: the single-wye internal-fuse model performs no range
check on the fault index. With S=4, Pt=Pa=6, P=3, N=14, Su=3 the requested
index f = 15 lies outside the claimed domain 0..N = 0..14, yet the sweep
returns a numeric row without raising. -/
theorem c4_counterexample :
    exceptIsOk (YInternal.calcular ⟨4, 6, 6, 3, 14, 3⟩ 1 (some [15])) = true := by
  norm_num [YInternal.calcular, YInternal.row, YInternal.fCi, YInternal.fVg,
    YInternal.fCu, YInternal.fCg, YInternal.fCs, YInternal.fCp, YInternal.fVng,
    safeDiv, pyAbs, eps, sweep, exceptIsOk, Bind.bind, Except.bind]

/-- C4 (amended): only the external-fuse models range-check the requested
fault index — their loop bodies raise ValueError for n < 0 or n > Pa,
whatever the other inputs — while the internal-fuse models perform no check
(see the counterexample). -/
theorem c4_amended (p3 : Params03) (p6 : Params06) (G n : ℤ) (Chn0 Cp0 : ℚ)
    (h3 : n < 0 ∨ p3.Pa < n) (h6 : n < 0 ∨ p6.Pa < n) :
    Table03.rowChecked p3 G n =
      .error (.valueError "n fora do intervalo permitido.") ∧
    Table06.rowAt p6 G Chn0 Cp0 (.idx n) =
      .error (.valueError "n must be between 0 and Pa (inclusive).") := by
  constructor
  · rw [Table03.rowChecked, if_pos h3]
  · rw [Table06.rowAt, if_pos h6]

/-- Witness for C4 (amended) at n = 9 against Pa = 8. -/
theorem c4_amended_witness :
    Table03.rowChecked ⟨4, 14, 8, 1⟩ 1 9 =
      .error (.valueError "n fora do intervalo permitido.") ∧
    Table06.rowAt ⟨5, 3, 15, 8⟩ 1 5 3 (.idx 9) =
      .error (.valueError "n must be between 0 and Pa (inclusive).") :=
  c4_amended ⟨4, 14, 8, 1⟩ ⟨5, 3, 15, 8⟩ 1 9 5 3 (by norm_num) (by norm_num)

/-- C3 (amended): the double-wye external-fuse model does implement the
limiting case — at n = Pa (all units of the faulted branch blown) the
computed Cg is exactly 0 and the row is returned without raising, its
capacitor-unit overvoltage being `Vcu = Vln * S` rather than a division. -/
theorem c3_amended (p : Params03) (G : ℤ)
    (hPa : 1 ≤ p.Pa) (hPaPt : p.Pa ≤ p.Pt) :
    ∃ r : Row03, Table03.rowChecked p G p.Pa = .ok r ∧
      r.Cg = 0 ∧ r.Vcu = r.Vln * (p.S : ℚ) := by
  have hPaQ : (1 : ℚ) ≤ (p.Pa : ℚ) := by exact_mod_cast hPa
  have hPtQ : (1 : ℚ) ≤ (p.Pt : ℚ) := by exact_mod_cast le_trans hPa hPaPt
  have hPaPtQ : (p.Pa : ℚ) ≤ (p.Pt : ℚ) := by exact_mod_cast hPaPt
  have hPt0 : (0 : ℚ) < (p.Pt : ℚ) := lt_of_lt_of_le one_pos hPtQ
  have hCg : Table03.fCg p p.Pa = .ok 0 := by
    rw [Table03.fCg, safeDiv_of_one_le _ _ _ hPaQ, sub_self, zero_div]
  have hCs : Table03.fCs p 0 = .ok 0 := by
    rw [Table03.fCs, mul_zero, zero_mul, zero_add, safeDiv_of_one_le _ _ _ le_rfl,
      zero_div]
  have hCp : Table03.fCp p 0 =
      .ok (((p.Pt : ℚ) - (p.Pa : ℚ)) / (p.Pt : ℚ)) := by
    rw [Table03.fCp, zero_mul, zero_add, safeDiv_of_one_le _ _ _ hPtQ]
  have hCpNonneg : (0 : ℚ) ≤ ((p.Pt : ℚ) - (p.Pa : ℚ)) / (p.Pt : ℚ) :=
    div_nonneg (by linarith) (le_of_lt hPt0)
  have hInner : safeDiv 3 (2 + ((p.Pt : ℚ) - (p.Pa : ℚ)) / (p.Pt : ℚ)) "Vng inner" =
      .ok (3 / (2 + ((p.Pt : ℚ) - (p.Pa : ℚ)) / (p.Pt : ℚ))) :=
    safeDiv_of_one_le _ _ _ (by linarith)
  have hVcu : ∀ Vln : ℚ, Table03.fVcu p Vln 0 0 = .ok (Vln * (p.S : ℚ)) := by
    intro Vln
    rw [Table03.fVcu, if_pos]
    norm_num [pyAbs, eps]
  have hIn : ∀ Vng : ℚ, Table03.fIn p Vng G =
      .ok (3 * Vng * (G : ℚ) * ((p.Pt : ℚ) - (p.Pa : ℚ)) / (p.Pt : ℚ)) := by
    intro Vng
    rw [Table03.fIn, safeDiv_of_one_le _ _ _ hPtQ]
  have hchk : ¬ (p.Pa < 0 ∨ p.Pa > p.Pa) := by omega
  simp only [Table03.rowChecked, if_neg hchk, Table03.row, Table03.fVng,
    hCg, hCs, hCp, hInner, hVcu, hIn, ok_bind]
  exact ⟨_, rfl, rfl, rfl⟩

/-- Witness for C3 (amended): the spec's double-wye external example
S=4, Pt=14, Pa=8, ungrounded. -/
theorem c3_amended_witness :
    ∃ r : Row03, Table03.rowChecked ⟨4, 14, 8, 1⟩ 1 (Params03.mk 4 14 8 1).Pa = .ok r ∧
      r.Cg = 0 ∧ r.Vcu = r.Vln * ((4 : ℤ) : ℚ) :=
  c3_amended ⟨4, 14, 8, 1⟩ 1 (by norm_num) (by norm_num)

/-- C3 counterexample: the single-wye internal-fuse model has no limiting
case for Cg = 0. With all parameters 1 and f = 1 (= N, the whole cell
failed), the chain gives Ci = 0, Cu = 0 and Cg = 0, and the Vcu step raises
ZeroDivisionError instead of returning Vln·S. -/
theorem c3_counterexample :
    YInternal.fCi ⟨1, 1, 1, 1, 1, 1⟩ 1 = .ok 0 ∧
    YInternal.fCu ⟨1, 1, 1, 1, 1, 1⟩ 0 = .ok 0 ∧
    YInternal.fCg ⟨1, 1, 1, 1, 1, 1⟩ 0 = .ok 0 ∧
    YInternal.row ⟨1, 1, 1, 1, 1, 1⟩ 0 1 = .error (.zeroDivisionError "Vcu") := by
  refine ⟨?_, ?_, ?_, ?_⟩ <;>
    norm_num [YInternal.row, YInternal.fCi, YInternal.fVg, YInternal.fCu,
      YInternal.fCg, YInternal.fCs, YInternal.fCp, YInternal.fVng,
      safeDiv, pyAbs, eps, Bind.bind, Except.bind]

end CapBank



